import Mathlib

set_option linter.dupNamespace false

/-! ## ml-lib: the base `ml` object (`sources/ml_ml.cpp`)

A shallow embedding of the host-integration code of ml-lib: the file-path helpers
(`get_file_extension_from_path`, `get_data_file_paths`, `check_empty_with_error`) and the
message handlers of the base object (`add`, `record`, `write`, `read`, `clear`).

`std::string` is embedded as `List Char`; `std::string::npos` is `none`.
-/

namespace ml

/-- A `std::string`: a finite sequence of characters. -/
abbrev CppString := List Char

/-- `static const std::string k_model_extension = ".model";` -/
def k_model_extension : CppString := ['.', 'm', 'o', 'd', 'e', 'l']

/-- `static const std::string k_data_extension = ".data";` -/
def k_data_extension : CppString := ['.', 'd', 'a', 't', 'a']

/-- `std::string::find_last_of(chars)`: the greatest index whose character is one of `chars`,
`none` (npos) when there is none. -/
def find_last_of : CppString → List Char → Option Nat
  | [], _ => none
  | c :: cs, chars =>
    match find_last_of cs chars with
    | some i => some (i + 1)
    | none => if c ∈ chars then some 0 else none

/-- `std::string::substr(pos, n)` for `pos ≤ size()`: at most `n` characters from `pos` on. -/
def substr (s : CppString) (pos n : Nat) : CppString :=
  (s.drop pos).take n

/-- The extension of a path (full path or bare file name), leading dot included; a lone
trailing dot is no extension. -/
def get_file_extension_from_path (path_ : CppString) : CppString :=
  let path : CppString :=
    match find_last_of path_ ['\\', '/'] with
    | some sep => substr path_ (sep + 1) (path_.length - sep - 1)
    | none => path_
  let extension : CppString :=
    match find_last_of path ['.'] with
    | some dot => substr path dot (path.length - dot)
    | none => []
  if extension = ['.'] then [] else extension

/-- The function `get_data_file_paths`: the two reference parameters `data_path` and `model_path`
are passed in and returned as a pair `(data_path, model_path)`. -/
def get_data_file_paths (supplied_path data_path model_path : CppString) :
    CppString × CppString :=
  let extension := get_file_extension_from_path supplied_path
  if extension = k_model_extension then
    (data_path, supplied_path)
  else if extension = k_data_extension then
    (supplied_path, model_path)
  else
    (supplied_path ++ k_data_extension, supplied_path ++ k_model_extension)

end ml

/-! ## The external toolkit (GRT)

The containers of the Gesture Recognition Toolkit are not part of this repository. They are
embedded with the members the object calls and with the preconditions the toolkit checks
(dimension agreement, non-null class label). A `double` is embedded as the rational number it
denotes; the float-to-double widening of `GetAFloat` results is exact. -/

namespace GRT

/-- Modulus of `GRT::UINT` (`unsigned int`, 32 bits). -/
def UINT_MOD : Nat := 2 ^ 32

abbrev VectorDouble := List ℚ

/-- The conversion `(GRT::UINT)x` of a `double`: truncation toward zero. Outside the range of
`unsigned int` C++ leaves the result undefined; here it wraps modulo `2^32`. -/
def to_UINT (x : ℚ) : Nat :=
  Int.toNat ((Int.tdiv x.num x.den) % (UINT_MOD : Int))

/-- `GRT::MatrixDouble`: the rows and the column count of a growable matrix. -/
structure MatrixDouble where
  rows : List VectorDouble
  cols : Nat
  deriving DecidableEq

namespace MatrixDouble

def getNumRows (m : MatrixDouble) : Nat := m.rows.length

def getNumCols (m : MatrixDouble) : Nat := m.cols

/-- `Matrix::clear()`: no rows, no columns. -/
def clear (_m : MatrixDouble) : MatrixDouble := { rows := [], cols := 0 }

/-- `Matrix::push_back(sample)`: the first row fixes the column count; a later row of another
length is refused. -/
def push_back (m : MatrixDouble) (sample : VectorDouble) : MatrixDouble × Bool :=
  if m.rows = [] then ({ rows := [sample], cols := sample.length }, true)
  else if sample.length ≠ m.cols then (m, false)
  else ({ m with rows := m.rows ++ [sample] }, true)

end MatrixDouble

structure ClassificationSample where
  classLabel : Nat
  sample : VectorDouble
  deriving DecidableEq

/-- `GRT::ClassificationData`. -/
structure ClassificationData where
  numDimensions : Nat
  data : List ClassificationSample
  deriving DecidableEq

namespace ClassificationData

def getNumDimensions (d : ClassificationData) : Nat := d.numDimensions

def getNumSamples (d : ClassificationData) : Nat := d.data.length

def clear (d : ClassificationData) : ClassificationData := { d with data := [] }

/-- `setNumDimensions(n)`: for `n > 0` the stored samples are dropped and the dimension is set. -/
def setNumDimensions (d : ClassificationData) (n : Nat) : ClassificationData × Bool :=
  if 0 < n then ({ numDimensions := n, data := [] }, true) else (d, false)

/-- `addSample(classLabel, sample)`: refused when the sample has the wrong size or the label is
the null class label 0. -/
def addSample (d : ClassificationData) (classLabel : Nat) (sample : VectorDouble) :
    ClassificationData × Bool :=
  if sample.length ≠ d.numDimensions then (d, false)
  else if classLabel = 0 then (d, false)
  else ({ d with data := d.data ++ [{ classLabel := classLabel, sample := sample }] }, true)

end ClassificationData

structure RegressionSample where
  inputVector : VectorDouble
  targetVector : VectorDouble
  deriving DecidableEq

/-- `GRT::RegressionData`. -/
structure RegressionData where
  numInputDimensions : Nat
  numTargetDimensions : Nat
  data : List RegressionSample
  deriving DecidableEq

namespace RegressionData

def getNumInputDimensions (d : RegressionData) : Nat := d.numInputDimensions

def getNumTargetDimensions (d : RegressionData) : Nat := d.numTargetDimensions

def getNumSamples (d : RegressionData) : Nat := d.data.length

def clear (d : RegressionData) : RegressionData := { d with data := [] }

/-- `setInputAndTargetDimensions(i, t)`: the samples are dropped first; the dimensions are set
when both are positive. -/
def setInputAndTargetDimensions (d : RegressionData) (i t : Nat) : RegressionData × Bool :=
  if 0 < i ∧ 0 < t then ({ numInputDimensions := i, numTargetDimensions := t, data := [] }, true)
  else (d.clear, false)

/-- `addSample(input, target)`: refused when either vector has the wrong size. -/
def addSample (d : RegressionData) (input target : VectorDouble) : RegressionData × Bool :=
  if input.length = d.numInputDimensions ∧ target.length = d.numTargetDimensions then
    ({ d with data := d.data ++ [{ inputVector := input, targetVector := target }] }, true)
  else (d, false)

end RegressionData

structure TimeSeriesClassificationSample where
  classLabel : Nat
  data : MatrixDouble
  deriving DecidableEq

/-- `GRT::TimeSeriesClassificationData`. -/
structure TimeSeriesClassificationData where
  numDimensions : Nat
  data : List TimeSeriesClassificationSample
  deriving DecidableEq

namespace TimeSeriesClassificationData

def getNumDimensions (d : TimeSeriesClassificationData) : Nat := d.numDimensions

def getNumSamples (d : TimeSeriesClassificationData) : Nat := d.data.length

def clear (d : TimeSeriesClassificationData) : TimeSeriesClassificationData :=
  { d with data := [] }

def setNumDimensions (d : TimeSeriesClassificationData) (n : Nat) :
    TimeSeriesClassificationData × Bool :=
  if 0 < n then ({ numDimensions := n, data := [] }, true) else (d, false)

/-- `addSample(classLabel, trainingSample)`: refused when the matrix has the wrong number of
columns or the label is the null class label 0. -/
def addSample (d : TimeSeriesClassificationData) (classLabel : Nat)
    (trainingSample : MatrixDouble) : TimeSeriesClassificationData × Bool :=
  if trainingSample.getNumCols ≠ d.numDimensions then (d, false)
  else if classLabel = 0 then (d, false)
  else ({ d with data := d.data ++ [{ classLabel := classLabel, data := trainingSample }] }, true)

end TimeSeriesClassificationData

/-- `GRT::UnlabelledData`. -/
structure UnlabelledData where
  numDimensions : Nat
  data : List VectorDouble
  deriving DecidableEq

namespace UnlabelledData

def getNumDimensions (d : UnlabelledData) : Nat := d.numDimensions

def getNumSamples (d : UnlabelledData) : Nat := d.data.length

def clear (d : UnlabelledData) : UnlabelledData := { d with data := [] }

def setNumDimensions (d : UnlabelledData) (n : Nat) : UnlabelledData × Bool :=
  if 0 < n then ({ numDimensions := n, data := [] }, true) else (d, false)

end UnlabelledData

/-- `GRT::MLBase`, the learner behind `get_MLBase_instance()`: of its state only the trained
flag is observed by the object. -/
structure MLBase where
  trained : Bool
  deriving DecidableEq

namespace MLBase

def getTrained (m : MLBase) : Bool := m.trained

/-- `MLBase::clear()`: the model is dropped. -/
def clear (_m : MLBase) : MLBase := { trained := false }

end MLBase

end GRT

/-! ## The base object `ml::ml` -/

namespace ml

/-- Modelled from the spec: the enumeration `ml_data_type` is declared in the header `ml_ml.h`,
which is not among the sources. Its four data types are those of the glossary (labelled
classification, labelled regression, labelled time-series classification, unlabelled
classification), under the names the source uses, followed by the counting enumerator
`MLP_NUM_DATA_TYPES` that `set_data_type` compares against. -/
inductive ml_data_type where
  | LABELLED_CLASSIFICATION
  | LABELLED_REGRESSION
  | LABELLED_TIME_SERIES_CLASSIFICATION
  | UNLABELLED_CLASSIFICATION
  | MLP_NUM_DATA_TYPES
  deriving DecidableEq

open ml_data_type

/-- The integer value of an enumerator, in declaration order. -/
def ml_data_type.toNat : ml_data_type → Nat
  | LABELLED_CLASSIFICATION => 0
  | LABELLED_REGRESSION => 1
  | LABELLED_TIME_SERIES_CLASSIFICATION => 2
  | UNLABELLED_CLASSIFICATION => 3
  | MLP_NUM_DATA_TYPES => 4

/-- What a handler does to the outside world, in order: console lines (`error`, `post`), a
message on an outlet (`ToOutAnything(outlet, tag, argc, argv)` with integer atoms), and the
calls that touch files. -/
inductive Event where
  | error (msg : String)
  | post (msg : String)
  | out (outlet : Nat) (tag : String) (atoms : List Int)
  | write_dataset (path : CppString)
  | save_model (path : CppString)
  | read_dataset (path : CppString)
  | load_model (path : CppString)
  deriving DecidableEq

/-- `SetInt(a, b)` for a `bool` argument, and flext's `SetBool`: the integer atom 0 or 1. -/
def SetInt (b : Bool) : Int := if b then 1 else 0

/-- The selectors `s_write`, `s_read`, `s_clear`. -/
def s_write : String := "write"

def s_read : String := "read"

def s_clear : String := "clear"

/-- The data members of `ml::ml` that the handlers read or write. -/
structure ml where
  data_type : ml_data_type
  current_label : Nat
  probs : Bool
  recording : Bool
  regression_data : GRT.RegressionData
  classification_data : GRT.ClassificationData
  time_series_classification_data : GRT.TimeSeriesClassificationData
  unlabelled_data : GRT.UnlabelledData
  time_series_data : GRT.MatrixDouble
  mlBase : GRT.MLBase
  deriving DecidableEq

/-- What `read_specialised_dataset` leaves behind: its return value and the contents of the four
dataset containers afterwards. -/
structure DatasetLoad where
  success : Bool
  regression_data : GRT.RegressionData
  classification_data : GRT.ClassificationData
  time_series_classification_data : GRT.TimeSeriesClassificationData
  unlabelled_data : GRT.UnlabelledData

/-- The parts of a request that the source leaves to the subclass and to the file system: the
pure virtual `write_specialised_dataset` / `read_specialised_dataset`, and the toolkit's
`saveModelToFile` / `loadModelFromFile`. Each is an arbitrary function of the object and the
path. -/
structure Files where
  write_specialised_dataset : ml → CppString → Bool
  saveModelToFile : GRT.MLBase → CppString → Bool
  read_specialised_dataset : ml → CppString → DatasetLoad
  loadModelFromFile : GRT.MLBase → CppString → GRT.MLBase × Bool

/-- The power of two that separates neighbouring 32-bit floats at the magnitude `c`: 1 below
`2^24`, doubled for every further binary digit of `c` (`fuel` bounds the number of halvings). -/
def float_quantum : Nat → Nat → Nat
  | 0, _ => 1
  | fuel + 1, c => if c < 2 ^ 24 then 1 else 2 * float_quantum fuel (c / 2)

/-- The conversion `(float)` of a natural number: the nearest number with a 24-bit significand,
a tie going to the even significand. -/
def float_of_nat (c : Nat) : Nat :=
  let q := float_quantum c c
  let m := c / q
  let r := c % q
  if q < 2 * r ∨ (2 * r = q ∧ m % 2 = 1) then (m + 1) * q else m * q

/-- The conversion `(float)` of an integer. -/
def float_of_int (i : Int) : Int :=
  if i < 0 then -((float_of_nat i.natAbs : Nat) : Int) else ((float_of_nat i.natAbs : Nat) : Int)

/-- The call `GetAFloat(atom)` of flext, on the number the atom holds: an integer atom is
converted to `float`; a float atom holds a 32-bit float already and is returned as it is (an
integral value held by a float atom is its own conversion); a symbol atom counts as the
number 0. -/
def GetAFloat (a : ℚ) : ℚ :=
  if a.den = 1 then ((float_of_int a.num : Int) : ℚ) else a

/-- `get_symbol_as_string`: the text of a symbol, empty for a symbol without text. -/
def get_symbol_as_string (symbol : Option CppString) : CppString :=
  match symbol with
  | some c_string => c_string
  | none => []

/-- `check_empty_with_error`: whether the string is empty, and the console line it prints. -/
def check_empty_with_error (string : CppString) : Bool × List Event :=
  if string.isEmpty then (true, [Event.error "path string is empty"]) else (false, [])

namespace ml

def get_data_type (self : ml) : ml_data_type := self.data_type

/-- `ml::set_num_inputs(uint8_t num_inputs)`; the caller's value is reduced modulo 256 by the
parameter type (the test `num_inputs < 0` can never hold and prints nothing). -/
def set_num_inputs (self : ml) (num_inputs : Nat) : ml × List Event :=
  let num_inputs := num_inputs % 256
  let data_type := self.get_data_type
  let r : ml × Bool :=
    if data_type = LABELLED_CLASSIFICATION then
      let p := self.classification_data.setNumDimensions num_inputs
      ({ self with classification_data := p.1 }, p.2)
    else if data_type = LABELLED_REGRESSION then
      let p := self.regression_data.setInputAndTargetDimensions num_inputs
        self.regression_data.getNumTargetDimensions
      ({ self with regression_data := p.1 }, p.2)
    else if data_type = LABELLED_TIME_SERIES_CLASSIFICATION then
      let p := self.time_series_classification_data.setNumDimensions num_inputs
      ({ self with time_series_classification_data := p.1 }, p.2)
    else if data_type = UNLABELLED_CLASSIFICATION then
      let p := self.unlabelled_data.setNumDimensions num_inputs
      ({ self with unlabelled_data := p.1 }, p.2)
    else (self, false)
  if r.2 = false then (r.1, [Event.error "unable to set input or target dimensions"])
  else (r.1, [])

/-- `ml::record_(bool state)`. -/
def record_ (self : ml) (state : Bool) : ml × List Event :=
  let data_type := self.get_data_type
  if data_type ≠ LABELLED_TIME_SERIES_CLASSIFICATION then
    (self, [Event.error "record method only valid for time series data"])
  else
    let self := { self with recording := state }
    let self :=
      if self.recording = false ∧ self.current_label ≠ 0 ∧ 0 < self.time_series_data.getNumRows
      then
        { self with time_series_classification_data :=
            (self.time_series_classification_data.addSample self.current_label
              self.time_series_data).1 }
      else self
    ({ self with time_series_data := self.time_series_data.clear, current_label := 0 }, [])

/-- `ml::record(bool state)`. -/
def record (self : ml) (state : Bool) : ml × List Event :=
  let r := self.record_ state
  let record_state := if r.1.recording then "on" else "off"
  (r.1, r.2 ++ [Event.post ("recording: " ++ record_state)])

/-- The loop of `add` over the atoms: `float value = GetAFloat(argv[index])` goes to
`targetVector[index]` while `index < numOutputDimensions`, and to
`inputVector[index - numOutputDimensions]` after that. -/
def fill_vectors (numOutputDimensions : Nat) :
    List ℚ → Nat → GRT.VectorDouble × GRT.VectorDouble → GRT.VectorDouble × GRT.VectorDouble
  | [], _, vectors => vectors
  | atom :: rest, index, (targetVector, inputVector) =>
    let value := GetAFloat atom
    if index < numOutputDimensions then
      fill_vectors numOutputDimensions rest (index + 1)
        (targetVector.set index value, inputVector)
    else
      fill_vectors numOutputDimensions rest (index + 1)
        (targetVector, inputVector.set (index - numOutputDimensions) value)

/-- Subtraction of `GRT::UINT` values, wrapping modulo `2^32`. -/
def UINT_sub (a b : Nat) : Nat :=
  Int.toNat (((a : Int) - (b : Int)) % (GRT.UINT_MOD : Int))

/-- The sizes `add` reads from the container selected by the data type:
`(numInputDimensions, numOutputDimensions)`, or `none` for an unhandled data type. -/
def add_dimensions (self : ml) : Option (Nat × Nat) :=
  let data_type := self.get_data_type
  if data_type = LABELLED_CLASSIFICATION then
    some (self.classification_data.getNumDimensions, 1)
  else if data_type = LABELLED_REGRESSION then
    some (self.regression_data.getNumInputDimensions,
      self.regression_data.getNumTargetDimensions)
  else if data_type = LABELLED_TIME_SERIES_CLASSIFICATION then
    some (self.time_series_classification_data.getNumDimensions, 1)
  else if data_type = UNLABELLED_CLASSIFICATION then
    some (self.unlabelled_data.getNumDimensions, 1)
  else none

/-- The last part of `add`, once the two vectors are filled: label validation and the insertion
into the container selected by `data_type` (the data type read at the start of `add`). -/
def add_store (self : ml) (data_type : ml_data_type)
    (targetVector inputVector : GRT.VectorDouble) : ml × List Event :=
  if data_type = LABELLED_CLASSIFICATION ∨ data_type = LABELLED_TIME_SERIES_CLASSIFICATION then
    let label := GRT.to_UINT (targetVector.headD 0)
    if (label : ℚ) ≠ targetVector.headD 0 then
      (self, [Event.error "class label must be a positive integer"])
    else if label = 0 then
      (self, [Event.error "class label must be non-zero"])
    else if data_type = LABELLED_CLASSIFICATION then
      ({ self with classification_data :=
          (self.classification_data.addSample (GRT.to_UINT (targetVector.headD 0))
            inputVector).1 }, [])
    else
      if self.recording then
        -- allow label to be changed on-the-fly without explicitly toggling "record"
        let r : ml × List Event :=
          if label ≠ self.current_label then
            let r1 := self.record_ false
            let r2 := r1.1.record_ true
            (r2.1, r1.2 ++ r2.2)
          else (self, [])
        ({ r.1 with current_label := label,
                    time_series_data := (r.1.time_series_data.push_back inputVector).1 }, r.2)
      else
        (self, [Event.error
          "cannot add time series data if recording is off, send 'record 1' to start recording"])
  else if data_type = LABELLED_REGRESSION then
    ({ self with regression_data :=
        (self.regression_data.addSample inputVector targetVector).1 }, [])
  else (self, [])

/-- `ml::add(int argc, const t_atom *argv)`; `argv` holds the number of each atom (the integer
of an integer atom, the 32-bit float of a float atom, 0 for a symbol) and `argc` is its length.
The two vectors are taken to be allocated whatever their size. -/
def add (self : ml) (argv : List ℚ) : ml × List Event :=
  let argc := argv.length
  if argc < 2 then
    (self, [Event.error "invalid input length, must contain at least 2 values"])
  else
    let data_type := self.get_data_type
    match self.add_dimensions with
    | none => (self, [Event.error ("unhandled data_type:" ++ toString data_type.toNat)])
    | some (numInputDimensions, numOutputDimensions) =>
      let combinedVectorSize := (numInputDimensions + numOutputDimensions) % GRT.UINT_MOD
      if argc % GRT.UINT_MOD ≠ combinedVectorSize then
        let numInputDimensions := UINT_sub argc numOutputDimensions
        if numInputDimensions < 1 then
          (self, [Event.error ("invalid input length, expected at least " ++
            toString ((numOutputDimensions + 1) % GRT.UINT_MOD))])
        else
          let r := self.set_num_inputs numInputDimensions
          let vectors := fill_vectors numOutputDimensions argv 0
            (List.replicate numOutputDimensions 0, List.replicate numInputDimensions 0)
          let r2 := r.1.add_store data_type vectors.1 vectors.2
          (r2.1, [Event.post ("new input vector size, adjusting num_inputs to " ++
            toString numInputDimensions)] ++ r.2 ++ r2.2)
      else
        let vectors := fill_vectors numOutputDimensions argv 0
          (List.replicate numOutputDimensions 0, List.replicate numInputDimensions 0)
        self.add_store data_type vectors.1 vectors.2

/-- The test that opens `ml::write`: the container of the current data type has no samples. -/
def no_observations (self : ml) : Bool :=
  let data_type := self.get_data_type
  (data_type = LABELLED_REGRESSION && self.regression_data.getNumSamples = 0) ||
  (data_type = LABELLED_CLASSIFICATION && self.classification_data.getNumSamples = 0) ||
  (data_type = LABELLED_TIME_SERIES_CLASSIFICATION &&
    self.time_series_classification_data.getNumSamples = 0) ||
  (data_type = UNLABELLED_CLASSIFICATION && self.unlabelled_data.getNumSamples = 0)

/-- `ml::write(const t_symbol *path) const`: the events of one `write` request. -/
def write (self : ml) (fs : Files) (path : Option CppString) : List Event :=
  let success := false
  let a_success := SetInt success
  let file_path := get_symbol_as_string path
  if self.no_observations then
    [Event.error "no observations added, use 'add' to add training data",
     Event.out 1 s_write [a_success]]
  else
    let chk := check_empty_with_error file_path
    if chk.1 then chk.2
    else
      let paths := get_data_file_paths file_path [] []
      let dataset_file_path := paths.1
      let model_file_path := paths.2
      let r1 : Bool × List Event :=
        if ¬ dataset_file_path.isEmpty then
          let success := fs.write_specialised_dataset self dataset_file_path
          (success, Event.write_dataset dataset_file_path ::
            (if ¬ success then
              [Event.error ("unable to write training data to path: " ++
                String.mk dataset_file_path)]
             else []))
        else (success, [])
      let r2 : Bool × List Event :=
        if ¬ model_file_path.isEmpty then
          if self.mlBase.getTrained then
            let success := fs.saveModelToFile self.mlBase model_file_path
            (success, Event.save_model model_file_path ::
              (if ¬ success then
                [Event.error ("unable to write model to path: " ++ String.mk model_file_path)]
               else []))
          else if get_file_extension_from_path file_path = k_model_extension then
            (r1.1, [Event.error "model not trained, use 'train' to train a model"])
          else (r1.1, [])
        else (r1.1, [])
      chk.2 ++ r1.2 ++ r2.2 ++ [Event.out 1 s_write [SetInt r2.1]]

/-- `ml::read(const t_symbol *path)`: the object after one `read` request and its events. -/
def read (self : ml) (fs : Files) (path : Option CppString) : ml × List Event :=
  let success := false
  let file_path := get_symbol_as_string path
  let chk := check_empty_with_error file_path
  if chk.1 then (self, chk.2)
  else
    let paths := get_data_file_paths file_path [] []
    let dataset_file_path := paths.1
    let model_file_path := paths.2
    let r1 : ml × Bool × List Event :=
      if ¬ dataset_file_path.isEmpty then
        let l := fs.read_specialised_dataset self dataset_file_path
        ({ self with regression_data := l.regression_data,
                     classification_data := l.classification_data,
                     time_series_classification_data := l.time_series_classification_data,
                     unlabelled_data := l.unlabelled_data },
         l.success, Event.read_dataset dataset_file_path ::
          (if ¬ l.success then
            [Event.error ("unable to read training data from path: " ++
              String.mk dataset_file_path)]
           else []))
      else (self, success, [])
    let r2 : ml × Bool × List Event :=
      if ¬ model_file_path.isEmpty then
        let l := fs.loadModelFromFile r1.1.mlBase model_file_path
        ({ r1.1 with mlBase := l.1 }, l.2, Event.load_model model_file_path ::
          (if ¬ l.2 then
            [Event.error ("unable to read model from path: " ++ String.mk model_file_path)]
           else []))
      else (r1.1, r1.2.1, [])
    (r2.1, chk.2 ++ r1.2.2 ++ r2.2.2 ++ [Event.out 1 s_read [SetInt r2.2.1]])

/-- `ml::clear()`. -/
def clear (self : ml) : ml × List Event :=
  let self := { self with mlBase := self.mlBase.clear }
  let self := { self with regression_data := self.regression_data.clear }
  let self := { self with classification_data := self.classification_data.clear }
  let self := { self with
    time_series_classification_data := self.time_series_classification_data.clear }
  let self := { self with unlabelled_data := self.unlabelled_data.clear }
  let status := SetInt true
  (self, [Event.out 1 s_clear [status]])

end ml

end ml

/-! ## Notions used to state the properties, and sample objects -/

namespace ml

open ml_data_type

/-- The number of samples in the dataset container that the data type selects (the same
selection as in `add`, `set_num_inputs` and the opening test of `write`); `none` for the
counting enumerator, which selects no container. -/
def selected_num_samples (self : ml) : Option Nat :=
  match self.data_type with
  | LABELLED_CLASSIFICATION => some self.classification_data.getNumSamples
  | LABELLED_REGRESSION => some self.regression_data.getNumSamples
  | LABELLED_TIME_SERIES_CLASSIFICATION =>
    some self.time_series_classification_data.getNumSamples
  | UNLABELLED_CLASSIFICATION => some self.unlabelled_data.getNumSamples
  | MLP_NUM_DATA_TYPES => none

/-- The outlet messages among the events of a request. -/
def responses (events : List Event) : List Event :=
  events.filter (fun e => match e with
    | Event.out _ _ _ => true
    | _ => false)

/-- The file operations attempted among the events of a request. -/
def file_attempts (events : List Event) : List Event :=
  events.filter (fun e => match e with
    | Event.write_dataset _ => true
    | Event.save_model _ => true
    | Event.read_dataset _ => true
    | Event.load_model _ => true
    | _ => false)

/-- A labelled-classification object with two input dimensions and no samples. -/
def sample_empty : ml :=
  { data_type := LABELLED_CLASSIFICATION, current_label := 0, probs := false, recording := false,
    regression_data := { numInputDimensions := 2, numTargetDimensions := 1, data := [] },
    classification_data := { numDimensions := 2, data := [] },
    time_series_classification_data := { numDimensions := 2, data := [] },
    unlabelled_data := { numDimensions := 2, data := [] },
    time_series_data := { rows := [], cols := 0 },
    mlBase := { trained := false } }

/-- The object `sample_empty` after `add 1 5 7`, with an untrained model. -/
def sample_untrained : ml :=
  { sample_empty with
    classification_data := { numDimensions := 2, data := [{ classLabel := 1, sample := [5, 7] }] } }

/-- The object `sample_untrained` with a trained model. -/
def sample_trained : ml :=
  { sample_untrained with mlBase := { trained := true } }

/-- File operations with fixed outcomes: the dataset write or load returns `dataset_ok` (a load
leaves the containers as they are), the model save or load returns `model_ok`. -/
def files_with (dataset_ok model_ok : Bool) : Files :=
  { write_specialised_dataset := fun _ _ => dataset_ok,
    saveModelToFile := fun _ _ => model_ok,
    read_specialised_dataset := fun self _ =>
      { success := dataset_ok,
        regression_data := self.regression_data,
        classification_data := self.classification_data,
        time_series_classification_data := self.time_series_classification_data,
        unlabelled_data := self.unlabelled_data },
    loadModelFromFile := fun m _ => ({ trained := model_ok || m.trained }, model_ok) }

end ml

/-! ## `set_data_type` and message sequences -/

namespace ml

open ml_data_type

namespace ml

/-- `ml::set_data_type(ml_data_type data_type)`. -/
def set_data_type (self : ml) (data_type : ml_data_type) : ml × List Event :=
  if data_type.toNat > MLP_NUM_DATA_TYPES.toNat then
    (self, [Event.error ("invalid data type: %d" ++ toString data_type.toNat)])
  else
    ({ self with data_type := data_type }, [])

end ml

/-- A request that reaches the object: a message of the host (`add`, `record`, `clear`, `read`,
`write`) or a call of one of the two setters. -/
inductive Message where
  | add (argv : List ℚ)
  | record (state : Bool)
  | clear
  | read (path : Option CppString)
  | write (path : Option CppString)
  | set_data_type (data_type : ml_data_type)
  | set_num_inputs (num_inputs : Nat)

/-- The object after one request, with the events of that request. -/
def handle (fs : Files) (self : ml) : Message → ml × List Event
  | Message.add argv => self.add argv
  | Message.record state => self.record state
  | Message.clear => self.clear
  | Message.read path => self.read fs path
  | Message.write path => (self, self.write fs path)
  | Message.set_data_type data_type => self.set_data_type data_type
  | Message.set_num_inputs num_inputs => self.set_num_inputs num_inputs

/-- The object after a sequence of requests, handled in order. -/
def run (fs : Files) (self : ml) (messages : List Message) : ml :=
  messages.foldl (fun s m => (handle fs s m).1) self

/-- The messages `add label x` for each feature vector `x` of a sequence, in order. -/
def add_each (label : ℚ) (vectors : List (List ℚ)) : List Message :=
  vectors.map (fun x => Message.add (label :: x))

/-- Whether a dataset container lost or kept its samples but gained none: its sample list is
the one before, or empty. -/
def kept_or_emptied {α : Type} (before after : List α) : Prop :=
  after = before ∨ after = []

/-- No container of `after` holds a sample that `before` did not hold. -/
def no_sample_added (before after : ml) : Prop :=
  kept_or_emptied before.classification_data.data after.classification_data.data ∧
  kept_or_emptied before.regression_data.data after.regression_data.data ∧
  kept_or_emptied before.time_series_classification_data.data
    after.time_series_classification_data.data ∧
  kept_or_emptied before.unlabelled_data.data after.unlabelled_data.data

/-- What the first part of `add` does to the time-series dataset when a list of `n` features
arrives: nothing when `n` is its number of dimensions, `setNumDimensions` with `n` reduced
modulo 256 otherwise. -/
def adjust_time_series (n : Nat) (d : GRT.TimeSeriesClassificationData) :
    GRT.TimeSeriesClassificationData :=
  if n = d.numDimensions then d else (d.setNumDimensions (n % 256)).1

/-- The object after `add` in time-series mode, given the label and the feature vector `x` as the
loop of `add` has read them (after `GetAFloat`), for sizes within the range of `int` and
`GRT::UINT`: nothing for an empty `x` (fewer than two values), otherwise the adjustment of the
dataset dimension followed by the last part of `add`. It is proved equal to `add` under those
conditions (`add_time_series`). -/
def time_series_add (self : ml) (label : ℚ) (x : List ℚ) : ml :=
  if x.length = 0 then self
  else
    (ml.add_store
      { self with time_series_classification_data :=
          adjust_time_series x.length self.time_series_classification_data }
      LABELLED_TIME_SERIES_CLASSIFICATION [label] x).1

/-- A labelled-regression object with two input and three target dimensions and one sample. -/
def sample_regression : ml :=
  { sample_empty with
    data_type := LABELLED_REGRESSION,
    regression_data :=
      { numInputDimensions := 2,
        numTargetDimensions := 3,
        data := [{ inputVector := [5, 7], targetVector := [1, 2, 3] }] } }

/-- A time-series object with two dimensions and one stored sample, recording off. -/
def sample_time_series : ml :=
  { sample_empty with
    data_type := LABELLED_TIME_SERIES_CLASSIFICATION,
    time_series_classification_data :=
      { numDimensions := 2,
        data := [{ classLabel := 1, data := { rows := [[5, 7], [6, 8]], cols := 2 } }] } }

end ml

/-! ## `ml.svm` (`ml.libsvm/ml_svm.cpp`) -/

namespace GRT

/-- The SVM types and kernel types of the external toolkit, numbered as in libsvm. -/
def C_SVC : Int := 0

def NU_SVC : Int := 1

def ONE_CLASS : Int := 2

def EPSILON_SVR : Int := 3

def NU_SVR : Int := 4

def LINEAR : Int := 0

def POLY : Int := 1

def RBF : Int := 2

def SIGMOID : Int := 3

def PRECOMPUTED : Int := 4

end GRT

namespace ml

/-- The instance variables of `ml_svm`. -/
structure ml_svm where
  nr_fold : Int
  estimates : Bool
  deriving DecidableEq

namespace ml_svm

/-- The constructor `ml_svm::ml_svm()`. -/
def constructor : ml_svm × List Event :=
  ({ nr_fold := 2, estimates := false },
   [Event.post "ml.svm: Support Vector Machines using the svm library"])

def set_type (self : ml_svm) (type : Int) : ml_svm × List Event :=
  if type = GRT.C_SVC ∨ type = GRT.NU_SVC ∨ type = GRT.ONE_CLASS ∨ type = GRT.EPSILON_SVR ∨
      type = GRT.NU_SVR then (self, [])
  else (self, [Event.post
    "invalid SVM type, send a 'help' message to the first inlet for available types"])

def set_kernel (self : ml_svm) (kernel : Int) : ml_svm × List Event :=
  if kernel = GRT.LINEAR ∨ kernel = GRT.POLY ∨ kernel = GRT.RBF ∨ kernel = GRT.SIGMOID ∨
      kernel = GRT.PRECOMPUTED then (self, [])
  else (self, [Event.post
    "invalid kernel type, send a 'help' message to the first inlet for available types"])

/-- The setters whose bodies are commented out: `set_degree`, `set_cachesize`. -/
def set_degree (self : ml_svm) (_degree : Int) : ml_svm × List Event := (self, [])

def set_cachesize (self : ml_svm) (_cachesize : Int) : ml_svm × List Event := (self, [])

/-- The setters whose bodies are commented out: `set_gamma`, `set_coef0`, `set_cost`, `set_nu`,
`set_epsilon`. -/
def set_gamma (self : ml_svm) (_gamma : ℚ) : ml_svm × List Event := (self, [])

def set_coef0 (self : ml_svm) (_coef0 : ℚ) : ml_svm × List Event := (self, [])

def set_cost (self : ml_svm) (_cost : ℚ) : ml_svm × List Event := (self, [])

def set_nu (self : ml_svm) (_nu : ℚ) : ml_svm × List Event := (self, [])

def set_epsilon (self : ml_svm) (_epsilon : ℚ) : ml_svm × List Event := (self, [])

def set_shrinking (self : ml_svm) (shrinking : Int) : ml_svm × List Event :=
  if shrinking = 0 ∨ shrinking = 1 then (self, [])
  else (self, [Event.error "shrinking must either be 0 (off) or 1 (on)"])

def set_estimates (self : ml_svm) (estimates : Bool) : ml_svm × List Event :=
  ({ self with estimates := estimates }, [])

/-- `set_weights(const AtomList &weights)`: the body is commented out. -/
def set_weights (self : ml_svm) (_weights : List CppString) : ml_svm × List Event := (self, [])

def set_mode (self : ml_svm) (mode : Int) : ml_svm × List Event :=
  if mode < 2 then (self, [Event.error "n-fold cross validation: n must >= 2"])
  else ({ self with nr_fold := mode }, [])

/-- `get_estimates(bool &estimates) const`: the assignment in the body is commented out, so the
caller's variable keeps the value it had. -/
def get_estimates (_self : ml_svm) (estimates : Bool) : Bool := estimates

/-- `get_mode(int &mode) const`: the caller's variable receives `nr_fold`. -/
def get_mode (self : ml_svm) (_mode : Int) : Int := self.nr_fold

end ml_svm

/-- An attribute set on `ml_svm`: one constructor per `FLEXT_CADDATTR_SET` of its `setup`. -/
inductive svm_attribute where
  | type (v : Int)
  | kernel (v : Int)
  | degree (v : Int)
  | gamma (v : ℚ)
  | coef0 (v : ℚ)
  | cost (v : ℚ)
  | nu (v : ℚ)
  | epsilon (v : ℚ)
  | cachesize (v : Int)
  | shrinking (v : Int)
  | estimates (v : Bool)
  | weights (v : List CppString)
  | mode (v : Int)

/-- The setter behind each attribute, as registered in `ml_svm::setup`. -/
def svm_set (self : ml_svm) : svm_attribute → ml_svm × List Event
  | svm_attribute.type v => self.set_type v
  | svm_attribute.kernel v => self.set_kernel v
  | svm_attribute.degree v => self.set_degree v
  | svm_attribute.gamma v => self.set_gamma v
  | svm_attribute.coef0 v => self.set_coef0 v
  | svm_attribute.cost v => self.set_cost v
  | svm_attribute.nu v => self.set_nu v
  | svm_attribute.epsilon v => self.set_epsilon v
  | svm_attribute.cachesize v => self.set_cachesize v
  | svm_attribute.shrinking v => self.set_shrinking v
  | svm_attribute.estimates v => self.set_estimates v
  | svm_attribute.weights v => self.set_weights v
  | svm_attribute.mode v => self.set_mode v

/-- The `ml_svm` object after construction and a sequence of attribute sets. -/
def svm_after (sets : List svm_attribute) : ml_svm :=
  sets.foldl (fun s a => (svm_set s a).1) ml_svm.constructor.1

end ml

/-! ## `ml.hmm` (`sources/classification/ml_hmm.cpp`) -/

namespace ml

/-- One registration made by a `setup` function: `FLEXT_CADDATTR_SET(c, name, method)`,
`FLEXT_CADDATTR_GET(c, name, method)` or `DefineHelp(c, name)`. -/
inductive Registration where
  | attr_set (name : String) (method : String)
  | attr_get (name : String) (method : String)
  | help (name : String)
  deriving DecidableEq

namespace ml_hmm

def ml_object_name : String := "ml.hmm"

/-- `ml_hmm::setup`: the registrations of `ml_classification::setup` (not among the sources,
hence a parameter) followed by its own, in source order. -/
def setup (inherited : List Registration) : List Registration :=
  inherited ++
  [Registration.attr_set "num_states" "set_num_states",
   Registration.attr_set "num_symbols" "set_num_symbols",
   Registration.attr_set "num_model_type" "set_model_type",
   Registration.attr_set "delta" "set_delta",
   Registration.attr_set "max_num_iterations" "set_max_num_iterations",
   Registration.attr_set "num_random_training_iterations" "set_num_random_training_iterations",
   Registration.attr_set "min_improvement" "set_min_improvement",
   Registration.attr_get "num_states" "get_num_states",
   Registration.attr_get "num_symbols" "get_num_symbols",
   Registration.attr_get "num_symbols" "get_model_type",
   Registration.attr_get "delta" "get_delta",
   Registration.attr_get "max_num_iterations" "get_max_num_iterations",
   Registration.attr_get "min_improvement" "get_min_improvement",
   Registration.help ml_object_name]

/-- The attribute names documented by `ml_hmm::attribute_help`, one per line of that string. -/
def documented_attributes : List String :=
  ["num_states", "num_symbols", "model_type", "delta", "max_num_iterations",
   "num_random_training_iterations", "min_improvement"]

/-- The getters registered under an attribute name. -/
def getters_of (registrations : List Registration) (name : String) : List String :=
  registrations.filterMap (fun r => match r with
    | Registration.attr_get n m => if n = name then some m else none
    | _ => none)

/-- The setters registered under an attribute name. -/
def setters_of (registrations : List Registration) (name : String) : List String :=
  registrations.filterMap (fun r => match r with
    | Registration.attr_set n m => if n = name then some m else none
    | _ => none)

end ml_hmm

end ml

/-! ## Construction and reachable states -/

namespace ml

open ml_data_type

namespace ml

/-- The constructor `ml::ml()`: `current_label(0), probs(false), recording(false)`, the toolkit
containers and the recording buffer default-constructed (no dimensions, no samples, no rows),
then `set_data_type(default_data_type)` and `set_num_inputs(default_num_input_dimensions)`.
The two defaults are declared in the header `ml_ml.h`, which is not among the sources, and are
parameters here, as are the value the member `data_type` holds before it is first set and the
learner of the subclass. -/
def constructor (uninitialised default_data_type : ml_data_type)
    (default_num_input_dimensions : Nat) (mlBase : GRT.MLBase) : ml × List Event :=
  let self : ml :=
    { data_type := uninitialised,
      current_label := 0,
      probs := false,
      recording := false,
      regression_data := { numInputDimensions := 0, numTargetDimensions := 0, data := [] },
      classification_data := { numDimensions := 0, data := [] },
      time_series_classification_data := { numDimensions := 0, data := [] },
      unlabelled_data := { numDimensions := 0, data := [] },
      time_series_data := { rows := [], cols := 0 },
      mlBase := mlBase }
  let r1 := self.set_data_type default_data_type
  let r2 := r1.1.set_num_inputs default_num_input_dimensions
  (r2.1, r1.2 ++ r2.2)

end ml

/-- The object after a sequence of requests, each with the file-system behaviour that holds
when it is handled. -/
def run_steps (self : ml) (steps : List (Files × Message)) : ml :=
  steps.foldl (fun s step => (handle step.1 s step.2).1) self

/-- The relation between the recording flag, the recording buffer and the current label: with
recording off the buffer has no rows and the label is 0, and a buffer with rows goes with a
non-zero label. -/
def recording_invariant (self : ml) : Prop :=
  (self.recording = false →
    self.time_series_data.getNumRows = 0 ∧ self.current_label = 0) ∧
  (self.time_series_data.getNumRows ≠ 0 → self.current_label ≠ 0)

end ml

/-! ## File-path helpers -/

namespace ml

theorem find_last_of_eq_none {s chars : List Char} (h : ∀ c ∈ s, c ∉ chars) :
    find_last_of s chars = none := by
  induction s with
  | nil => rfl
  | cons c cs ih =>
    have hcs : find_last_of cs chars = none := ih (fun x hx => h x (List.mem_cons_of_mem _ hx))
    have hc : c ∉ chars := h c (List.mem_cons_self _ _)
    simp [find_last_of, hcs, hc]

theorem find_last_of_append_right (s t chars : List Char) (h : ∀ c ∈ t, c ∉ chars) :
    find_last_of (s ++ t) chars = find_last_of s chars := by
  induction s with
  | nil => simpa [find_last_of] using find_last_of_eq_none h
  | cons c cs ih => simp [find_last_of, ih]

theorem find_last_of_concat (s : List Char) (c : Char) (chars : List Char) (h : c ∈ chars) :
    find_last_of (s ++ [c]) chars = some s.length := by
  induction s with
  | nil => simp [find_last_of, h]
  | cons x xs ih => simp [find_last_of, ih]

theorem get_data_file_paths_expand (supplied_path data_path model_path : CppString)
    (hd : get_file_extension_from_path supplied_path ≠ k_data_extension)
    (hm : get_file_extension_from_path supplied_path ≠ k_model_extension) :
    get_data_file_paths supplied_path data_path model_path =
      (supplied_path ++ k_data_extension, supplied_path ++ k_model_extension) := by
  simp [get_data_file_paths, hd, hm]

/-- C1: when the extension of the supplied path is neither `.data` nor `.model`, `data_path`
becomes the supplied path followed by `.data` and `model_path` the supplied path followed by
`.model`, whatever the two output strings held before. -/
theorem get_data_file_paths_no_suffix (supplied_path data_path model_path : CppString)
    (hd : get_file_extension_from_path supplied_path ≠ k_data_extension)
    (hm : get_file_extension_from_path supplied_path ≠ k_model_extension) :
    get_data_file_paths supplied_path data_path model_path =
      (supplied_path ++ k_data_extension, supplied_path ++ k_model_extension) := by
  simp [get_data_file_paths, hd, hm]

theorem get_data_file_paths_no_suffix_witness :
    get_data_file_paths ['a', '.', 't', 'x', 't'] ['o', 'l', 'd'] [] =
      (['a', '.', 't', 'x', 't'] ++ k_data_extension,
       ['a', '.', 't', 'x', 't'] ++ k_model_extension) :=
  get_data_file_paths_no_suffix ['a', '.', 't', 'x', 't'] ['o', 'l', 'd'] []
    (by decide) (by decide)

/-- C2: called with both output paths empty, a supplied path of extension `.data` comes back as
`data_path` with `model_path` left empty, and a supplied path of extension `.model` comes back as
`model_path` with `data_path` left empty. -/
theorem get_data_file_paths_suffix (supplied_path : CppString) :
    (get_file_extension_from_path supplied_path = k_data_extension →
      get_data_file_paths supplied_path [] [] = (supplied_path, [])) ∧
    (get_file_extension_from_path supplied_path = k_model_extension →
      get_data_file_paths supplied_path [] [] = ([], supplied_path)) := by
  constructor
  · intro h
    have hne : k_data_extension ≠ k_model_extension := by decide
    simp [get_data_file_paths, h, hne]
  · intro h
    simp [get_data_file_paths, h]

theorem get_data_file_paths_suffix_witness :
    get_data_file_paths ['d', '/', 'a', '.', 'd', 'a', 't', 'a'] [] [] =
      (['d', '/', 'a', '.', 'd', 'a', 't', 'a'], []) ∧
    get_data_file_paths ['a', '.', 'm', 'o', 'd', 'e', 'l'] [] [] =
      ([], ['a', '.', 'm', 'o', 'd', 'e', 'l']) :=
  ⟨(get_data_file_paths_suffix ['d', '/', 'a', '.', 'd', 'a', 't', 'a']).1 (by decide),
   (get_data_file_paths_suffix ['a', '.', 'm', 'o', 'd', 'e', 'l']).2 (by decide)⟩

/-- C3: for a directory prefix `d` ending in `/` or `\` and a file name `f` containing neither
separator, the extension of `d` followed by `f` is the extension of `f` alone. -/
theorem get_file_extension_from_path_directory (d f : CppString)
    (hd : d.getLast? = some '/' ∨ d.getLast? = some '\\')
    (hf : '/' ∉ f ∧ '\\' ∉ f) :
    get_file_extension_from_path (d ++ f) = get_file_extension_from_path f := by
  have hfree : ∀ c ∈ f, c ∉ ['\\', '/'] := by
    intro c hc hmem
    simp only [List.mem_cons, List.mem_singleton, List.not_mem_nil, or_false] at hmem
    rcases hmem with h | h
    · exact hf.2 (h ▸ hc)
    · exact hf.1 (h ▸ hc)
  obtain ⟨p, sep, hp, hsep⟩ : ∃ p sep, d = p ++ [sep] ∧ sep ∈ ['\\', '/'] := by
    rcases hd with h | h
    · exact ⟨d.dropLast, '/', (List.dropLast_append_getLast? _ h).symm, by simp⟩
    · exact ⟨d.dropLast, '\\', (List.dropLast_append_getLast? _ h).symm, by simp⟩
  have h1 : find_last_of (d ++ f) ['\\', '/'] = some p.length := by
    rw [find_last_of_append_right _ _ _ hfree, hp, find_last_of_concat _ _ _ hsep]
  have h2 : find_last_of f ['\\', '/'] = none := find_last_of_eq_none hfree
  have h3 : substr (d ++ f) (p.length + 1) ((d ++ f).length - p.length - 1) = f := by
    subst hp
    have hdrop : List.drop (p.length + 1) (p ++ [sep] ++ f) = f := by
      have : (p ++ [sep]).length = p.length + 1 := by simp
      rw [← this, List.drop_left]
    simp only [substr, hdrop]
    apply List.take_of_length_le
    simp only [List.length_append, List.length_singleton]
    omega
  simp only [get_file_extension_from_path, h1, h2, h3]

theorem get_file_extension_from_path_directory_witness :
    get_file_extension_from_path (['a', '.', 'b', '/'] ++ ['c', '.', 'd', 'a', 't', 'a']) =
      get_file_extension_from_path ['c', '.', 'd', 'a', 't', 'a'] :=
  get_file_extension_from_path_directory ['a', '.', 'b', '/'] ['c', '.', 'd', 'a', 't', 'a']
    (by decide) (by decide)

end ml

/-! ## `write`, `read` and `clear` -/

namespace ml

open ml_data_type

theorem no_observations_of_selected_zero (self : ml) (h : selected_num_samples self = some 0) :
    self.no_observations = true := by
  unfold selected_num_samples at h
  unfold ml.no_observations ml.get_data_type
  cases hdt : self.data_type <;> rw [hdt] at h <;> simp at h <;> simp [h]

theorem no_observations_of_selected_pos (self : ml) (n : Nat)
    (h : selected_num_samples self = some (n + 1)) : self.no_observations = false := by
  unfold selected_num_samples at h
  unfold ml.no_observations ml.get_data_type
  cases hdt : self.data_type <;> rw [hdt] at h <;> simp at h <;> simp [h]

theorem isEmpty_append_data (path : CppString) : (path ++ k_data_extension).isEmpty = false := by
  cases path <;> rfl

theorem isEmpty_append_model (path : CppString) : (path ++ k_model_extension).isEmpty = false := by
  cases path <;> rfl

theorem isEmpty_eq_false_of_ne_nil {path : CppString} (h : path ≠ []) : path.isEmpty = false := by
  cases path with
  | nil => exact absurd rfl h
  | cons _ _ => rfl

theorem extension_nil : get_file_extension_from_path [] = [] := by decide

theorem ne_nil_of_extension_model {path : CppString}
    (h : get_file_extension_from_path path = k_model_extension) : path ≠ [] := by
  intro hp
  rw [hp, extension_nil] at h
  exact absurd h (by decide)

/-- C4: `write` on an object whose dataset has samples, and `read` on any object, answer the
empty path with the console line "path string is empty" alone: no `write` and no `read` message
reaches the outlet. -/
theorem write_read_empty_path_no_response (self : ml) (fs : Files)
    (h : self.no_observations = false) :
    self.write fs (some []) = [Event.error "path string is empty"] ∧
    self.read fs (some []) = (self, [Event.error "path string is empty"]) ∧
    responses (self.write fs (some [])) = [] ∧
    responses (self.read fs (some [])).2 = [] := by
  have hw : self.write fs (some []) = [Event.error "path string is empty"] := by
    simp [ml.write, h, get_symbol_as_string, check_empty_with_error]
  have hr : self.read fs (some []) = (self, [Event.error "path string is empty"]) := by
    simp [ml.read, get_symbol_as_string, check_empty_with_error]
  refine ⟨hw, hr, ?_, ?_⟩
  · rw [hw]; rfl
  · rw [hr]; rfl

theorem write_read_empty_path_no_response_witness :
    sample_trained.write (files_with true true) (some []) =
      [Event.error "path string is empty"] ∧
    sample_trained.read (files_with true true) (some []) =
      (sample_trained, [Event.error "path string is empty"]) ∧
    responses (sample_trained.write (files_with true true) (some [])) = [] ∧
    responses (sample_trained.read (files_with true true) (some [])).2 = [] :=
  write_read_empty_path_no_response sample_trained (files_with true true) (by decide)

/-- C5: for a path without suffix, a dataset with samples and a trained model, when the dataset
write fails and the model save succeeds, `write` reports the failed dataset write on the console
and still emits `write 1`. -/
theorem write_flag_after_failed_dataset_write (self : ml) (fs : Files) (path : CppString)
    (hobs : self.no_observations = false) (hne : path ≠ [])
    (hd : get_file_extension_from_path path ≠ k_data_extension)
    (hm : get_file_extension_from_path path ≠ k_model_extension)
    (htrained : self.mlBase.trained = true)
    (hdata : fs.write_specialised_dataset self (path ++ k_data_extension) = false)
    (hmodel : fs.saveModelToFile self.mlBase (path ++ k_model_extension) = true) :
    self.write fs (some path) =
      [Event.write_dataset (path ++ k_data_extension),
       Event.error ("unable to write training data to path: " ++
         String.mk (path ++ k_data_extension)),
       Event.save_model (path ++ k_model_extension),
       Event.out 1 s_write [1]] := by
  simp [ml.write, hobs, get_symbol_as_string, check_empty_with_error,
    isEmpty_eq_false_of_ne_nil hne, get_data_file_paths_expand path [] [] hd hm,
    isEmpty_append_data, isEmpty_append_model, GRT.MLBase.getTrained, htrained, hdata, hmodel,
    SetInt]

theorem write_flag_after_failed_dataset_write_witness :
    sample_trained.write (files_with false true) (some ['p']) =
      [Event.write_dataset (['p'] ++ k_data_extension),
       Event.error ("unable to write training data to path: " ++
         String.mk (['p'] ++ k_data_extension)),
       Event.save_model (['p'] ++ k_model_extension),
       Event.out 1 s_write [1]] :=
  write_flag_after_failed_dataset_write sample_trained (files_with false true) ['p']
    (by decide) (by decide) (by decide) (by decide) rfl rfl rfl

/-- C6: for a non-empty path without suffix, when the dataset load fails and the model load
succeeds, `read` reports the failed dataset load on the console and still emits `read 1`. -/
theorem read_flag_after_failed_dataset_load (self : ml) (fs : Files) (path : CppString)
    (hne : path ≠ [])
    (hd : get_file_extension_from_path path ≠ k_data_extension)
    (hm : get_file_extension_from_path path ≠ k_model_extension)
    (hdata : (fs.read_specialised_dataset self (path ++ k_data_extension)).success = false)
    (hmodel : (fs.loadModelFromFile self.mlBase (path ++ k_model_extension)).2 = true) :
    (self.read fs (some path)).2 =
      [Event.read_dataset (path ++ k_data_extension),
       Event.error ("unable to read training data from path: " ++
         String.mk (path ++ k_data_extension)),
       Event.load_model (path ++ k_model_extension),
       Event.out 1 s_read [1]] := by
  simp [ml.read, get_symbol_as_string, check_empty_with_error,
    isEmpty_eq_false_of_ne_nil hne, get_data_file_paths_expand path [] [] hd hm,
    isEmpty_append_data, isEmpty_append_model, hdata, hmodel, SetInt]

theorem read_flag_after_failed_dataset_load_witness :
    (sample_trained.read (files_with false true) (some ['p'])).2 =
      [Event.read_dataset (['p'] ++ k_data_extension),
       Event.error ("unable to read training data from path: " ++
         String.mk (['p'] ++ k_data_extension)),
       Event.load_model (['p'] ++ k_model_extension),
       Event.out 1 s_read [1]] :=
  read_flag_after_failed_dataset_load sample_trained (files_with false true) ['p']
    (by decide) (by decide) (by decide) rfl rfl

/-- C7: when the container selected by the data type holds no sample, `write` prints
"no observations added, use 'add' to add training data" and emits `write 0`, and that is all it
does: no dataset write and no model save is attempted, for every path and whether or not the
model is trained. -/
theorem write_no_observations (self : ml) (fs : Files) (path : Option CppString)
    (h : selected_num_samples self = some 0) :
    self.write fs path =
      [Event.error "no observations added, use 'add' to add training data",
       Event.out 1 s_write [0]] ∧
    file_attempts (self.write fs path) = [] := by
  have hw : self.write fs path =
      [Event.error "no observations added, use 'add' to add training data",
       Event.out 1 s_write [0]] := by
    simp [ml.write, no_observations_of_selected_zero self h, SetInt]
  refine ⟨hw, ?_⟩
  rw [hw]; rfl

theorem write_no_observations_witness :
    ml.write { sample_empty with mlBase := { trained := true } } (files_with true true)
        (some ['a', '.', 'm', 'o', 'd', 'e', 'l']) =
      [Event.error "no observations added, use 'add' to add training data",
       Event.out 1 s_write [0]] ∧
    file_attempts (ml.write { sample_empty with mlBase := { trained := true } }
        (files_with true true) (some ['a', '.', 'm', 'o', 'd', 'e', 'l'])) = [] :=
  write_no_observations { sample_empty with mlBase := { trained := true } }
    (files_with true true) (some ['a', '.', 'm', 'o', 'd', 'e', 'l']) (by decide)

/-- C8: with a non-empty active dataset and an untrained model, `write` to a path of extension
`.model` prints "model not trained, use 'train' to train a model", attempts no file write and
emits `write 0`; `write` to a path without suffix writes `<path>.data` only, prints no
untrained-model error, and emits the outcome of that dataset write as its flag. -/
theorem write_untrained_model (self : ml) (fs : Files) (path : CppString) (n : Nat)
    (hobs : selected_num_samples self = some (n + 1))
    (huntrained : self.mlBase.trained = false) :
    (get_file_extension_from_path path = k_model_extension →
      self.write fs (some path) =
        [Event.error "model not trained, use 'train' to train a model",
         Event.out 1 s_write [0]]) ∧
    (path ≠ [] → get_file_extension_from_path path ≠ k_data_extension →
      get_file_extension_from_path path ≠ k_model_extension →
      self.write fs (some path) =
        [Event.write_dataset (path ++ k_data_extension)] ++
        (if fs.write_specialised_dataset self (path ++ k_data_extension) = true then []
         else [Event.error ("unable to write training data to path: " ++
           String.mk (path ++ k_data_extension))]) ++
        [Event.out 1 s_write
          [SetInt (fs.write_specialised_dataset self (path ++ k_data_extension))]]) := by
  have hno := no_observations_of_selected_pos self n hobs
  constructor
  · intro hext
    have hne := ne_nil_of_extension_model hext
    simp [ml.write, hno, get_symbol_as_string, check_empty_with_error,
      isEmpty_eq_false_of_ne_nil hne, get_data_file_paths, hext, GRT.MLBase.getTrained,
      huntrained, SetInt]
  · intro hne hd hm
    cases hw : fs.write_specialised_dataset self (path ++ k_data_extension) <;>
    simp [ml.write, hno, get_symbol_as_string, check_empty_with_error,
      isEmpty_eq_false_of_ne_nil hne, get_data_file_paths_expand path [] [] hd hm,
      isEmpty_append_data, isEmpty_append_model, GRT.MLBase.getTrained, huntrained, hm, hw,
      SetInt]

theorem write_untrained_model_witness :
    sample_untrained.write (files_with true true) (some ['a', '.', 'm', 'o', 'd', 'e', 'l']) =
      [Event.error "model not trained, use 'train' to train a model",
       Event.out 1 s_write [0]] ∧
    sample_untrained.write (files_with true true) (some ['p']) =
      [Event.write_dataset (['p'] ++ k_data_extension)] ++
      (if (files_with true true).write_specialised_dataset sample_untrained
          (['p'] ++ k_data_extension) = true then []
       else [Event.error ("unable to write training data to path: " ++
         String.mk (['p'] ++ k_data_extension))]) ++
      [Event.out 1 s_write
        [SetInt ((files_with true true).write_specialised_dataset sample_untrained
          (['p'] ++ k_data_extension))]] :=
  ⟨(write_untrained_model sample_untrained (files_with true true)
      ['a', '.', 'm', 'o', 'd', 'e', 'l'] 0 (by decide) rfl).1 (by decide),
   (write_untrained_model sample_untrained (files_with true true) ['p'] 0 (by decide) rfl).2
      (by decide) (by decide) (by decide)⟩

/-- C9: after `clear`, in every state, the classification, regression, time-series
classification and unlabelled containers hold zero samples, the model is cleared, and the only
event is one `clear` message carrying the flag true (the atom 1). -/
theorem clear_empties_everything (self : ml) :
    (self.clear).1.classification_data.getNumSamples = 0 ∧
    (self.clear).1.regression_data.getNumSamples = 0 ∧
    (self.clear).1.time_series_classification_data.getNumSamples = 0 ∧
    (self.clear).1.unlabelled_data.getNumSamples = 0 ∧
    (self.clear).1.mlBase = self.mlBase.clear ∧
    (self.clear).1.mlBase.getTrained = false ∧
    (self.clear).2 = [Event.out 1 s_clear [SetInt true]] ∧
    responses (self.clear).2 = [Event.out 1 "clear" [1]] := by
  refine ⟨rfl, rfl, rfl, rfl, rfl, rfl, rfl, rfl⟩

end ml

/-! ## `add` -/

namespace ml

open ml_data_type

theorem to_UINT_natCast (c : Nat) (h : c < GRT.UINT_MOD) : GRT.to_UINT (c : ℚ) = c := by
  have h1 : ((c : Int) % (GRT.UINT_MOD : Int)) = (c : Int) :=
    Int.emod_eq_of_lt (Int.natCast_nonneg c) (by exact_mod_cast h)
  simp [GRT.to_UINT, h1]

theorem float_quantum_pos (fuel c : Nat) : 0 < float_quantum fuel c := by
  induction fuel generalizing c with
  | zero => simp [float_quantum]
  | succ fuel ih =>
    simp only [float_quantum]
    split
    · exact Nat.one_pos
    · have := ih (c / 2)
      omega

theorem float_quantum_le (fuel : Nat) : ∀ c : Nat, 0 < c → float_quantum fuel c ≤ c := by
  induction fuel with
  | zero => intro c hc; simpa [float_quantum] using hc
  | succ fuel ih =>
    intro c hc
    simp only [float_quantum]
    split
    · exact hc
    · rename_i hbig
      have h24 : 2 ^ 24 ≤ c := Nat.not_lt.mp hbig
      have hhalf : 0 < c / 2 := by
        have : (2 : Nat) ^ 24 = 16777216 := by norm_num
        omega
      have := ih (c / 2) hhalf
      omega

theorem float_of_nat_pos (c : Nat) (hc : 0 < c) : 0 < float_of_nat c := by
  have hq := float_quantum_pos c c
  have hle := float_quantum_le c c hc
  have hm : 0 < c / float_quantum c c := Nat.div_pos hle hq
  unfold float_of_nat
  dsimp only
  split
  · exact Nat.mul_pos (Nat.succ_pos _) hq
  · exact Nat.mul_pos hm hq

theorem GetAFloat_natCast (c : Nat) : GetAFloat (c : ℚ) = ((float_of_nat c : Nat) : ℚ) := by
  simp [GetAFloat, float_of_int]

theorem fill_vectors_input (numOutputDimensions : Nat) (values : List ℚ) :
    ∀ (index : Nat) (targetVector filled rest : GRT.VectorDouble),
      numOutputDimensions ≤ index → filled.length = index - numOutputDimensions →
      rest.length = values.length →
      ml.fill_vectors numOutputDimensions values index (targetVector, filled ++ rest) =
        (targetVector, filled ++ values.map GetAFloat) := by
  induction values with
  | nil =>
    intro index targetVector filled rest _ _ hrest
    have : rest = [] := List.length_eq_zero.mp hrest
    simp [ml.fill_vectors, this]
  | cons v vs ih =>
    intro index targetVector filled rest hle hfilled hrest
    cases rest with
    | nil => simp at hrest
    | cons r rs =>
      have hnot : ¬ index < numOutputDimensions := Nat.not_lt.mpr hle
      have hset : (filled ++ r :: rs).set (index - numOutputDimensions) (GetAFloat v)
          = (filled ++ [GetAFloat v]) ++ rs := by
        rw [← hfilled]
        simp
      simp only [ml.fill_vectors, hnot, if_false, hset]
      rw [ih (index + 1) targetVector (filled ++ [GetAFloat v]) rs (by omega)
        (by simp [hfilled]; omega) (by simpa using hrest)]
      simp

theorem fill_vectors_features (label : ℚ) (x : List ℚ) :
    ml.fill_vectors 1 (label :: x) 0 (List.replicate 1 0, List.replicate x.length 0) =
      ([GetAFloat label], x.map GetAFloat) := by
  have h := fill_vectors_input 1 x 1 [GetAFloat label] [] (List.replicate x.length 0)
    (Nat.le_refl 1) rfl (by simp)
  simpa [ml.fill_vectors] using h

/-- The integer atom 16777217 is read as the float 16777216: in labelled-classification mode
with two dimensions, `add 16777217 5 7` stores a sample under the label 16777216. -/
theorem add_label_narrowed :
    sample_empty.add [16777217, 5, 7] =
      ({ sample_empty with
          classification_data :=
            { numDimensions := 2, data := [{ classLabel := 16777216, sample := [5, 7] }] } },
       []) := by
  decide!

end ml

/-! ## `set_data_type`, `ml.svm` and `ml.hmm` -/

namespace ml

open ml_data_type

/-- C16: `set_data_type` called with the counting enumerator `MLP_NUM_DATA_TYPES` reports
nothing and stores it, so that afterwards the data type of the object is none of the four data
types. -/
theorem set_data_type_stores_counting_enumerator (self : ml) :
    self.set_data_type MLP_NUM_DATA_TYPES = ({ self with data_type := MLP_NUM_DATA_TYPES }, []) ∧
    (self.set_data_type MLP_NUM_DATA_TYPES).1.get_data_type ∉
      [LABELLED_CLASSIFICATION, LABELLED_REGRESSION, LABELLED_TIME_SERIES_CLASSIFICATION,
       UNLABELLED_CLASSIFICATION] := by
  constructor
  · rfl
  · simp [ml.set_data_type, ml.get_data_type, ml_data_type.toNat]

theorem svm_fold_invariant (sets : List svm_attribute) :
    ∀ s : ml_svm, 2 ≤ s.nr_fold → 2 ≤ (sets.foldl (fun s a => (svm_set s a).1) s).nr_fold := by
  induction sets with
  | nil => intro s h; exact h
  | cons a rest ih =>
    intro s h
    simp only [List.foldl_cons]
    apply ih
    cases a <;>
      simp only [svm_set, ml_svm.set_type, ml_svm.set_kernel, ml_svm.set_degree,
        ml_svm.set_gamma, ml_svm.set_coef0, ml_svm.set_cost, ml_svm.set_nu, ml_svm.set_epsilon,
        ml_svm.set_cachesize, ml_svm.set_shrinking, ml_svm.set_estimates, ml_svm.set_weights,
        ml_svm.set_mode] <;>
      first | exact h | (split <;> first | exact h | (simp only; omega))

/-- C17: after construction and any sequence of attribute sets, `get_mode` returns a fold count
of at least 2; `set_mode m` with `m < 2` prints "n-fold cross validation: n must >= 2" and
leaves the object (hence the fold count) as it was; `set_mode m` with `m ≥ 2` makes `get_mode`
return `m`. -/
theorem svm_mode_at_least_two (sets : List svm_attribute) (self : ml_svm) (m mode : Int) :
    2 ≤ (svm_after sets).get_mode mode ∧
    (m < 2 → self.set_mode m = (self, [Event.error "n-fold cross validation: n must >= 2"]) ∧
      (self.set_mode m).1.get_mode mode = self.get_mode mode) ∧
    (2 ≤ m → (self.set_mode m).1.get_mode mode = m) := by
  refine ⟨?_, ?_, ?_⟩
  · exact svm_fold_invariant sets _ (by decide)
  · intro h
    simp [ml_svm.set_mode, h]
  · intro h
    have h2 : ¬ m < 2 := by omega
    simp [ml_svm.set_mode, ml_svm.get_mode, h2]

theorem svm_mode_at_least_two_witness :
    (ml_svm.constructor.1.set_mode 1).1.get_mode 0 = ml_svm.constructor.1.get_mode 0 ∧
    (ml_svm.constructor.1.set_mode 5).1.get_mode 0 = 5 ∧
    2 ≤ (svm_after [svm_attribute.mode 5, svm_attribute.mode 1]).get_mode 0 :=
  ⟨((svm_mode_at_least_two [] ml_svm.constructor.1 1 0).2.1 (by decide)).2,
   (svm_mode_at_least_two [] ml_svm.constructor.1 5 0).2.2 (by decide),
   (svm_mode_at_least_two [svm_attribute.mode 5, svm_attribute.mode 1]
      ml_svm.constructor.1 0 0).1⟩

/-- C18: `get_estimates` called after `set_estimates b` leaves the caller's variable at its prior
value, whatever `b` is; after `set_estimates true` a variable holding false still holds false. -/
theorem svm_get_estimates_keeps_prior (self : ml_svm) (b prior : Bool) :
    (self.set_estimates b).1.get_estimates prior = prior ∧
    (self.set_estimates true).1.get_estimates false ≠ true := by
  constructor
  · rfl
  · simp [ml_svm.get_estimates]

/-- C19: whatever the base class registers, `ml_hmm::setup` registers `set_model_type` under
the name `num_model_type` and `get_model_type` under the name `num_symbols`; among its own
registrations the documented name `model_type` has neither setter nor getter,
`num_random_training_iterations` has no getter, and `num_symbols` has two getters. -/
theorem hmm_setup_registrations (inherited : List Registration) :
    "set_model_type" ∈ ml_hmm.setters_of (ml_hmm.setup inherited) "num_model_type" ∧
    "get_model_type" ∈ ml_hmm.getters_of (ml_hmm.setup inherited) "num_symbols" ∧
    ml_hmm.setters_of (ml_hmm.setup []) "model_type" = [] ∧
    ml_hmm.getters_of (ml_hmm.setup []) "model_type" = [] ∧
    ml_hmm.getters_of (ml_hmm.setup []) "num_random_training_iterations" = [] ∧
    ml_hmm.getters_of (ml_hmm.setup []) "num_symbols" = ["get_num_symbols", "get_model_type"] ∧
    "model_type" ∈ ml_hmm.documented_attributes ∧
    "num_random_training_iterations" ∈ ml_hmm.documented_attributes := by
  refine ⟨?_, ?_, by decide, by decide, by decide, by decide, by decide, by decide⟩
  · simp [ml_hmm.setters_of, ml_hmm.setup, List.filterMap_append]
  · simp [ml_hmm.getters_of, ml_hmm.setup, List.filterMap_append]

end ml

/-! ## `add`: rejected labels and adjusted dimensions -/

namespace ml

open ml_data_type

theorem fill_vectors_length (numOutputDimensions : Nat) (values : List ℚ) :
    ∀ (index : Nat) (targetVector inputVector : GRT.VectorDouble),
      (ml.fill_vectors numOutputDimensions values index (targetVector, inputVector)).1.length =
        targetVector.length ∧
      (ml.fill_vectors numOutputDimensions values index (targetVector, inputVector)).2.length =
        inputVector.length := by
  induction values with
  | nil => intro index targetVector inputVector; exact ⟨rfl, rfl⟩
  | cons v vs ih =>
    intro index targetVector inputVector
    simp only [ml.fill_vectors]
    split
    · have h := ih (index + 1) (targetVector.set index (GetAFloat v)) inputVector
      simpa using h
    · have h := ih (index + 1) targetVector
        (inputVector.set (index - numOutputDimensions) (GetAFloat v))
      simpa using h

theorem kept_or_emptied_refl {α : Type} (l : List α) : kept_or_emptied l l := Or.inl rfl

theorem set_num_inputs_no_sample_added (self : ml) (num_inputs : Nat) :
    no_sample_added self (self.set_num_inputs num_inputs).1 ∧
    (self.set_num_inputs num_inputs).1.time_series_data = self.time_series_data ∧
    (self.set_num_inputs num_inputs).1.current_label = self.current_label ∧
    (self.set_num_inputs num_inputs).1.recording = self.recording := by
  unfold ml.set_num_inputs no_sample_added kept_or_emptied
  simp only [ml.get_data_type, GRT.ClassificationData.setNumDimensions,
    GRT.RegressionData.setInputAndTargetDimensions, GRT.RegressionData.clear,
    GRT.TimeSeriesClassificationData.setNumDimensions, GRT.UnlabelledData.setNumDimensions]
  cases self.data_type <;> simp <;> split <;> simp

end ml

namespace ml

open ml_data_type

theorem add_store_regression_refused (self : ml) (targetVector inputVector : GRT.VectorDouble)
    (h : inputVector.length ≠ self.regression_data.numInputDimensions) :
    self.add_store LABELLED_REGRESSION targetVector inputVector = (self, []) := by
  simp [ml.add_store, GRT.RegressionData.addSample, h]

/-- C12: in regression mode with three target dimensions, `add 1 2` has fewer than
`numOutputDimensions + 1 = 4` values, yet no "invalid input length" error is printed: the only
event is the announcement of a new input size 4294967295, and the regression dataset (two input
dimensions, one sample) is replaced by an empty one with 255 input dimensions. -/
theorem add_regression_short_list_changes_state :
    sample_regression.data_type = LABELLED_REGRESSION ∧
    [(1 : ℚ), 2].length < sample_regression.regression_data.getNumTargetDimensions + 1 ∧
    sample_regression.add [1, 2] =
      ({ sample_regression with
          regression_data := { numInputDimensions := 255, numTargetDimensions := 3, data := [] } },
       [Event.post "new input vector size, adjusting num_inputs to 4294967295"]) ∧
    (sample_regression.add [1, 2]).1.regression_data ≠ sample_regression.regression_data := by
  have h1 : sample_regression.add_dimensions = some (2, 3) := by decide
  have h2 : ml.UINT_sub 2 3 = 4294967295 := by decide
  have h3 : sample_regression.set_num_inputs 4294967295 =
      ({ sample_regression with
          regression_data := { numInputDimensions := 255, numTargetDimensions := 3, data := [] } },
       []) := by decide
  have h4 : sample_regression.get_data_type = LABELLED_REGRESSION := rfl
  have h6 : toString 4294967295 = "4294967295" := by decide
  have hlen : ∀ big : List ℚ, big.length = 4294967295 →
      (ml.fill_vectors 3 [1, 2] 0 (List.replicate 3 0, big)).2.length ≠ 255 := by
    intro big hbig
    rw [(fill_vectors_length 3 [1, 2] 0 (List.replicate 3 0) big).2, hbig]
    decide
  have hadd : sample_regression.add [1, 2] =
      ({ sample_regression with
          regression_data := { numInputDimensions := 255, numTargetDimensions := 3, data := [] } },
       [Event.post "new input vector size, adjusting num_inputs to 4294967295"]) := by
    unfold ml.add
    simp only [List.length_cons, List.length_nil, h1, h2, h3, h4]
    generalize hbig : List.replicate 4294967295 (0 : ℚ) = big
    have hb : big.length = 4294967295 := by rw [← hbig, List.length_replicate]
    rw [if_neg (by decide), if_pos (by decide), if_neg (by decide)]
    rw [add_store_regression_refused]
    · simp [h6]
    · exact hlen big hb
  refine ⟨rfl, by decide, hadd, ?_⟩
  rw [hadd]
  decide

/-- C13: in labelled-classification mode with two dimensions, `add` with 258 values differs
from the current 2 + 1, announces "adjusting num_inputs to 257" (that is `argc -
numOutputDimensions`), and afterwards the classification dataset has 1 input dimension, not
257. -/
theorem add_adjusts_modulo_256 :
    sample_empty.data_type = LABELLED_CLASSIFICATION ∧
    ((1 : ℚ) :: List.replicate 257 0).length = 258 ∧
    ml.UINT_sub 258 1 = 257 ∧
    sample_empty.add ((1 : ℚ) :: List.replicate 257 0) =
      ({ sample_empty with classification_data := { numDimensions := 1, data := [] } },
       [Event.post "new input vector size, adjusting num_inputs to 257"]) ∧
    (sample_empty.add ((1 : ℚ) :: List.replicate 257 0)).1.classification_data.getNumDimensions
      ≠ 257 := by
  decide!

end ml

/-! ## Time series: `add` while recording, and `record` -/

namespace ml

open ml_data_type

theorem UINT_sub_succ_one (n : Nat) (h : n + 1 < 2 ^ 31) : ml.UINT_sub (n + 1) 1 = n := by
  unfold ml.UINT_sub GRT.UINT_MOD
  have h1 : (((n + 1 : Nat) : Int) - ((1 : Nat) : Int)) = (n : Int) := by push_cast; ring
  rw [h1]
  have h2 : (n : Int) % ((2 ^ 32 : Nat) : Int) = (n : Int) :=
    Int.emod_eq_of_lt (Int.natCast_nonneg n) (by exact_mod_cast (by omega : n < 2 ^ 32))
  rw [h2]
  simp

/-- In time-series mode, with an argument count in the range of `int` and a dataset dimension in
the range of `GRT::UINT`, the object after `add label x` is `time_series_add` at the label and
the features as `GetAFloat` reads them. -/
theorem add_time_series (self : ml) (label : ℚ) (x : List ℚ)
    (hdt : self.data_type = LABELLED_TIME_SERIES_CLASSIFICATION)
    (hargc : x.length + 1 < 2 ^ 31)
    (hdim : self.time_series_classification_data.numDimensions < 2 ^ 32) :
    (self.add (label :: x)).1 = time_series_add self (GetAFloat label) (x.map GetAFloat) := by
  unfold time_series_add
  simp only [List.length_map]
  by_cases h0 : x.length = 0
  · rw [if_pos h0]
    unfold ml.add
    rw [if_pos (by simp [h0])]
  · rw [if_neg h0]
    have hargc2 : ¬ (label :: x).length < 2 := by simp only [List.length_cons]; omega
    have hdims : self.add_dimensions =
        some (self.time_series_classification_data.numDimensions, 1) := by
      simp [ml.add_dimensions, ml.get_data_type, hdt,
        GRT.TimeSeriesClassificationData.getNumDimensions]
    unfold ml.add
    rw [if_neg hargc2, hdims]
    simp only [List.length_cons, ml.get_data_type]
    rw [UINT_sub_succ_one x.length hargc]
    have hm1 : (x.length + 1) % GRT.UINT_MOD = x.length + 1 :=
      Nat.mod_eq_of_lt (by unfold GRT.UINT_MOD; omega)
    by_cases hn : x.length = self.time_series_classification_data.numDimensions
    · have hcond : ¬ ((x.length + 1) % GRT.UINT_MOD ≠
          (self.time_series_classification_data.numDimensions + 1) % GRT.UINT_MOD) := by
        rw [hn]; simp
      rw [if_neg hcond]
      have hadj : adjust_time_series x.length self.time_series_classification_data =
          self.time_series_classification_data := by
        simp [adjust_time_series, hn]
      rw [hadj, ← hn, fill_vectors_features]
      cases self
      simp only at hdt
      subst hdt
      rfl
    · have hcond : (x.length + 1) % GRT.UINT_MOD ≠
          (self.time_series_classification_data.numDimensions + 1) % GRT.UINT_MOD := by
        rw [hm1]
        intro h
        by_cases hd : self.time_series_classification_data.numDimensions + 1 < GRT.UINT_MOD
        · rw [Nat.mod_eq_of_lt hd] at h; omega
        · have : self.time_series_classification_data.numDimensions + 1 = GRT.UINT_MOD := by
            unfold GRT.UINT_MOD at hd ⊢; omega
          rw [this, Nat.mod_self] at h; omega
      rw [if_pos hcond, if_neg (by omega)]
      simp only [fill_vectors_features]
      have hadj : (self.set_num_inputs x.length).1 =
          { self with time_series_classification_data :=
              adjust_time_series x.length self.time_series_classification_data } := by
        simp [ml.set_num_inputs, ml.get_data_type, hdt, adjust_time_series, hn]
        split <;> rfl
      rw [hadj]
      cases self
      simp only at hdt
      subst hdt
      rfl

end ml

namespace ml

open ml_data_type

theorem run_nil (fs : Files) (self : ml) : run fs self [] = self := rfl

theorem run_cons (fs : Files) (self : ml) (m : Message) (rest : List Message) :
    run fs self (m :: rest) = run fs (handle fs self m).1 rest := rfl

theorem run_append (fs : Files) (self : ml) (a b : List Message) :
    run fs self (a ++ b) = run fs (run fs self a) b := by
  simp [run, List.foldl_append]

theorem to_UINT_natCast_mod (c : Nat) : GRT.to_UINT (c : ℚ) = c % 2 ^ 32 := by
  have h1 : ((c : Int) % ((2 ^ 32 : Nat) : Int)) = ((c % 2 ^ 32 : Nat) : Int) := by
    push_cast; rfl
  simp only [GRT.to_UINT, GRT.UINT_MOD, Rat.num_natCast, Rat.den_natCast, Nat.cast_one,
    Int.tdiv_one, h1, Int.toNat_ofNat]

theorem label_test_fails_beyond_UINT (c : Nat) (h : 2 ^ 32 ≤ c) :
    ((GRT.to_UINT (c : ℚ) : Nat) : ℚ) ≠ (c : ℚ) := by
  rw [to_UINT_natCast_mod]
  intro heq
  have h2 : c % 2 ^ 32 = c := by exact_mod_cast heq
  have h3 : c % 2 ^ 32 < 2 ^ 32 := Nat.mod_lt _ (by decide)
  omega

theorem adjust_time_series_idem (n : Nat) (d : GRT.TimeSeriesClassificationData) :
    adjust_time_series n (adjust_time_series n d) = adjust_time_series n d := by
  unfold adjust_time_series GRT.TimeSeriesClassificationData.setNumDimensions
  by_cases h : n = d.numDimensions
  · simp [h]
  · by_cases h2 : 0 < n % 256
    · simp [h, h2]
    · simp [h, h2]

theorem adjust_time_series_bound (n : Nat) (d : GRT.TimeSeriesClassificationData)
    (h : d.numDimensions < 2 ^ 32) : (adjust_time_series n d).numDimensions < 2 ^ 32 := by
  unfold adjust_time_series GRT.TimeSeriesClassificationData.setNumDimensions
  by_cases h1 : n = d.numDimensions
  · simpa [h1] using h
  · by_cases h2 : 0 < n % 256
    · simp [h1, h2]; omega
    · simpa [h1, h2] using h

/-- Adding a sample whose matrix has `n` columns to an adjusted dataset leaves it adjusted. -/
theorem adjust_time_series_addSample (n : Nat) (d : GRT.TimeSeriesClassificationData)
    (c : Nat) (rows : List GRT.VectorDouble) :
    adjust_time_series n
        ((adjust_time_series n d).addSample c { rows := rows, cols := n }).1 =
      ((adjust_time_series n d).addSample c { rows := rows, cols := n }).1 := by
  by_cases h : n = (adjust_time_series n d).numDimensions
  · have h2 : (((adjust_time_series n d).addSample c { rows := rows, cols := n }).1).numDimensions
        = n := by
      unfold GRT.TimeSeriesClassificationData.addSample
      split
      · exact h.symm
      · split
        · exact h.symm
        · exact h.symm
    rw [adjust_time_series, if_pos h2.symm]
  · have h2 : ((adjust_time_series n d).addSample c { rows := rows, cols := n }).1 =
        adjust_time_series n d := by
      unfold GRT.TimeSeriesClassificationData.addSample
      rw [if_pos (by simpa [GRT.MatrixDouble.getNumCols] using h)]
    rw [h2, adjust_time_series_idem]

end ml

namespace ml

open ml_data_type

theorem add_store_label_mismatch (self : ml) (v : ℚ) (x : List ℚ)
    (h : ((GRT.to_UINT v : Nat) : ℚ) ≠ v) :
    self.add_store LABELLED_TIME_SERIES_CLASSIFICATION [v] x =
      (self, [Event.error "class label must be a positive integer"]) := by
  unfold ml.add_store
  rw [if_pos (Or.inr rfl)]
  dsimp only
  rw [if_pos (by simpa using h)]

theorem time_series_add_invalid (self : ml) (c : Nat) (x : List ℚ) (hc : 2 ^ 32 ≤ c)
    (hx : 1 ≤ x.length) :
    time_series_add self (c : ℚ) x =
      { self with time_series_classification_data :=
          adjust_time_series x.length self.time_series_classification_data } := by
  unfold time_series_add
  rw [if_neg (by omega), add_store_label_mismatch _ _ _ (label_test_fails_beyond_UINT c hc)]

theorem time_series_add_new_label (self : ml) (c : Nat) (x : List ℚ)
    (hdt : self.data_type = LABELLED_TIME_SERIES_CLASSIFICATION)
    (hc : 0 < c) (hlt : c < 2 ^ 32) (hx : 1 ≤ x.length)
    (hrec : self.recording = true) (hlabel : self.current_label ≠ c) :
    time_series_add self (c : ℚ) x =
      { self with
        time_series_classification_data :=
          if self.current_label ≠ 0 ∧ 0 < self.time_series_data.getNumRows then
            ((adjust_time_series x.length self.time_series_classification_data).addSample
              self.current_label self.time_series_data).1
          else adjust_time_series x.length self.time_series_classification_data,
        recording := true,
        current_label := c,
        time_series_data := { rows := [x], cols := x.length } } := by
  have hl : GRT.to_UINT (c : ℚ) = c := to_UINT_natCast c hlt
  have hc0 : c ≠ 0 := Nat.pos_iff_ne_zero.mp hc
  have hlabel2 : ¬ c = self.current_label := fun h => hlabel h.symm
  unfold time_series_add
  rw [if_neg (by omega)]
  cases self
  simp only at hdt hrec hlabel hlabel2
  subst hdt
  subst hrec
  simp [ml.add_store, hl, hc0, hlabel2, ml.record_, ml.get_data_type,
    GRT.MatrixDouble.clear, GRT.MatrixDouble.push_back]
  split <;> simp

theorem time_series_add_same_label (self : ml) (c : Nat) (x : List ℚ)
    (hc : 0 < c) (hlt : c < 2 ^ 32) (hx : 1 ≤ x.length)
    (hrec : self.recording = true) (hlabel : self.current_label = c)
    (hrows : self.time_series_data.rows ≠ [])
    (hcols : self.time_series_data.cols = x.length) :
    time_series_add self (c : ℚ) x =
      { self with
        time_series_classification_data :=
          adjust_time_series x.length self.time_series_classification_data,
        time_series_data :=
          { rows := self.time_series_data.rows ++ [x], cols := x.length } } := by
  have hl : GRT.to_UINT (c : ℚ) = c := to_UINT_natCast c hlt
  have hc0 : c ≠ 0 := Nat.pos_iff_ne_zero.mp hc
  unfold time_series_add
  rw [if_neg (by omega)]
  cases self
  simp only at hrec hlabel hrows hcols
  subst hrec
  subst hlabel
  simp [ml.add_store, hl, hc0, GRT.MatrixDouble.push_back, hrows, hcols]

end ml

namespace ml

open ml_data_type

theorem run_add_each_cons (fs : Files) (self : ml) (label : ℚ) (x : List ℚ)
    (rest : List (List ℚ)) :
    run fs self (add_each label (x :: rest)) =
      run fs (self.add (label :: x)).1 (add_each label rest) := rfl

theorem record_true_time_series (self : ml)
    (hdt : self.data_type = LABELLED_TIME_SERIES_CLASSIFICATION) :
    (self.record true).1 =
      { self with recording := true, time_series_data := { rows := [], cols := 0 },
                  current_label := 0 } := by
  cases self
  simp only at hdt
  subst hdt
  simp [ml.record, ml.record_, ml.get_data_type, GRT.MatrixDouble.clear]

theorem record_false_time_series (self : ml)
    (hdt : self.data_type = LABELLED_TIME_SERIES_CLASSIFICATION) :
    (self.record false).1 =
      { self with
        recording := false,
        time_series_classification_data :=
          if self.current_label ≠ 0 ∧ 0 < self.time_series_data.getNumRows then
            (self.time_series_classification_data.addSample self.current_label
              self.time_series_data).1
          else self.time_series_classification_data,
        time_series_data := { rows := [], cols := 0 },
        current_label := 0 } := by
  cases self
  simp only at hdt
  subst hdt
  simp [ml.record, ml.record_, ml.get_data_type, GRT.MatrixDouble.clear]
  split <;> simp

/-- While recording under the label `c`, further `add label x` messages whose label is read as
`c` and whose vectors have the buffer's width append their vectors, as `GetAFloat` reads them,
to the buffer and change nothing else. -/
theorem run_add_each_same_label (fs : Files) (label : ℚ) (c n : Nat)
    (hnarrow : GetAFloat label = (c : ℚ)) (hc : 0 < c) (hlt : c < 2 ^ 32)
    (hn : 1 ≤ n) (hargc : n + 1 < 2 ^ 31) :
    ∀ (xs : List (List ℚ)) (u : ml), (∀ x ∈ xs, x.length = n) →
      u.data_type = LABELLED_TIME_SERIES_CLASSIFICATION → u.recording = true →
      u.current_label = c → u.time_series_data.rows ≠ [] → u.time_series_data.cols = n →
      adjust_time_series n u.time_series_classification_data =
        u.time_series_classification_data →
      u.time_series_classification_data.numDimensions < 2 ^ 32 →
      run fs u (add_each label xs) =
        { u with time_series_data :=
            { rows := u.time_series_data.rows ++ xs.map (List.map GetAFloat), cols := n } } := by
  intro xs
  induction xs with
  | nil =>
    intro u _ _ _ _ _ hcols _ _
    cases u
    simp only at hcols
    subst hcols
    simp [add_each, run_nil]
  | cons x rest ih =>
    intro u hlen hdt hrec hlabel hrows hcols hadj hdim
    have hx : x.length = n := hlen x (List.mem_cons_self _ _)
    have hxm : (x.map GetAFloat).length = n := by rw [List.length_map]; exact hx
    rw [run_add_each_cons, add_time_series u _ x hdt (by omega) hdim, hnarrow,
      time_series_add_same_label u c (x.map GetAFloat) hc hlt (by omega) hrec hlabel hrows
        (by omega),
      hxm, hadj]
    have hnext := ih
      { u with time_series_data :=
          { rows := u.time_series_data.rows ++ [x.map GetAFloat], cols := n } }
      (fun y hy => hlen y (List.mem_cons_of_mem _ hy)) hdt hrec hlabel (by simp) rfl hadj hdim
    rw [hnext]
    simp

/-- Messages `add label x` whose label is read as a number beyond the range of `GRT::UINT` only
adjust the dataset dimension. -/
theorem run_add_each_invalid (fs : Files) (label : ℚ) (c n : Nat)
    (hnarrow : GetAFloat label = (c : ℚ)) (hc : 2 ^ 32 ≤ c)
    (hn : 1 ≤ n) (hargc : n + 1 < 2 ^ 31) :
    ∀ (xs : List (List ℚ)) (u : ml), (∀ x ∈ xs, x.length = n) →
      u.data_type = LABELLED_TIME_SERIES_CLASSIFICATION →
      adjust_time_series n u.time_series_classification_data =
        u.time_series_classification_data →
      u.time_series_classification_data.numDimensions < 2 ^ 32 →
      run fs u (add_each label xs) = u := by
  intro xs
  induction xs with
  | nil => intro u _ _ _ _; rfl
  | cons x rest ih =>
    intro u hlen hdt hadj hdim
    have hx : x.length = n := hlen x (List.mem_cons_self _ _)
    have hxm : (x.map GetAFloat).length = n := by rw [List.length_map]; exact hx
    rw [run_add_each_cons, add_time_series u _ x hdt (by omega) hdim, hnarrow,
      time_series_add_invalid u c (x.map GetAFloat) hc (by omega), hxm, hadj]
    exact ih u (fun y hy => hlen y (List.mem_cons_of_mem _ hy)) hdt hadj hdim

/-- Messages `add label` without feature values change nothing. -/
theorem run_add_each_no_features (fs : Files) (label : ℚ) :
    ∀ (xs : List (List ℚ)) (u : ml), (∀ x ∈ xs, x.length = 0) →
      run fs u (add_each label xs) = u := by
  intro xs
  induction xs with
  | nil => intro u _; rfl
  | cons x rest ih =>
    intro u hlen
    have hx : x = [] := List.length_eq_zero.mp (hlen x (List.mem_cons_self _ _))
    subst hx
    rw [run_add_each_cons]
    have h : (u.add [label]).1 = u := by
      unfold ml.add
      rw [if_pos (by simp)]
    rw [h]
    exact ih u (fun y hy => hlen y (List.mem_cons_of_mem _ hy))

end ml

namespace ml

open ml_data_type

/-- The object after `record 1` and `add label x` for each vector of a non-empty sequence of
common width `n`, for a label read as `c` in the range of `GRT::UINT`: recording is on under the
label `c`, the buffer holds the vectors as `GetAFloat` reads them, in order, and the dataset
dimension has been adjusted to `n`. -/
theorem run_record_then_adds (fs : Files) (self : ml) (label : ℚ) (c n : Nat) (x : List ℚ)
    (rest : List (List ℚ))
    (hdt : self.data_type = LABELLED_TIME_SERIES_CLASSIFICATION)
    (hnarrow : GetAFloat label = (c : ℚ))
    (hc : 0 < c) (hlt : c < 2 ^ 32) (hlen : ∀ y ∈ x :: rest, y.length = n)
    (hn : 1 ≤ n) (hargc : n + 1 < 2 ^ 31)
    (hdim : self.time_series_classification_data.numDimensions < 2 ^ 32) :
    run fs self (Message.record true :: add_each label (x :: rest)) =
      { self with
        recording := true,
        current_label := c,
        time_series_classification_data :=
          adjust_time_series n self.time_series_classification_data,
        time_series_data := { rows := (x :: rest).map (List.map GetAFloat), cols := n } } := by
  have hx : x.length = n := hlen x (List.mem_cons_self _ _)
  have hxm : (x.map GetAFloat).length = n := by rw [List.length_map]; exact hx
  have hc0 : (0 : Nat) ≠ c := by omega
  rw [run_cons]
  show run fs (self.record true).1 _ = _
  have h1 := add_time_series
    { self with recording := true, time_series_data := { rows := [], cols := 0 },
                current_label := 0 } label x hdt (by omega) hdim
  have h2 := time_series_add_new_label
    { self with recording := true, time_series_data := { rows := [], cols := 0 },
                current_label := 0 } c (x.map GetAFloat) hdt hc hlt (by omega) rfl hc0
  rw [record_true_time_series self hdt, run_add_each_cons, h1, hnarrow, h2, hxm]
  have hnext := run_add_each_same_label fs label c n hnarrow hc hlt hn hargc rest
    { self with
      recording := true,
      current_label := c,
      time_series_classification_data :=
        adjust_time_series n self.time_series_classification_data,
      time_series_data := { rows := [x.map GetAFloat], cols := n } }
    (fun y hy => hlen y (List.mem_cons_of_mem _ hy)) hdt rfl rfl (by simp) rfl
    (adjust_time_series_idem n _) (adjust_time_series_bound n _ hdim)
  simp only [ne_eq, not_true_eq_false, false_and, if_false]
  rw [hnext]
  simp

end ml

namespace ml

open ml_data_type

end ml

/-! ## Changing the label while recording -/

namespace ml

open ml_data_type

theorem addSample_numDimensions (d : GRT.TimeSeriesClassificationData) (c : Nat)
    (m : GRT.MatrixDouble) : (d.addSample c m).1.numDimensions = d.numDimensions := by
  unfold GRT.TimeSeriesClassificationData.addSample
  split
  · rfl
  · split <;> rfl

/-- The object after `record 0` followed by `record 1`, in time-series mode. -/
theorem record_false_true_time_series (self : ml)
    (hdt : self.data_type = LABELLED_TIME_SERIES_CLASSIFICATION) :
    ((self.record false).1.record true).1 =
      { self with
        recording := true,
        time_series_classification_data :=
          if self.current_label ≠ 0 ∧ 0 < self.time_series_data.getNumRows then
            (self.time_series_classification_data.addSample self.current_label
              self.time_series_data).1
          else self.time_series_classification_data,
        time_series_data := { rows := [], cols := 0 },
        current_label := 0 } := by
  rw [record_false_time_series self hdt]
  exact record_true_time_series _ hdt

/-- A final `record 0` gives the same object whether or not `record 0`, `record 1` came just
before it. -/
theorem record_false_after_restart (self : ml)
    (hdt : self.data_type = LABELLED_TIME_SERIES_CLASSIFICATION) :
    (((self.record false).1.record true).1.record false).1 = (self.record false).1 := by
  rw [record_false_true_time_series self hdt, record_false_time_series self hdt]
  rw [record_false_time_series _ (by exact hdt)]
  simp

/-- The dataset of the object after `record 0`, `record 1` is still adjusted to the width `n`
of the buffer that was flushed. -/
theorem restart_adjusted (self : ml) (n : Nat)
    (hadj : adjust_time_series n self.time_series_classification_data =
      self.time_series_classification_data)
    (hbuf : self.current_label ≠ 0 → self.time_series_data.rows ≠ [] →
      self.time_series_data.cols = n) :
    adjust_time_series n
      (if self.current_label ≠ 0 ∧ 0 < self.time_series_data.getNumRows then
        (self.time_series_classification_data.addSample self.current_label
          self.time_series_data).1
       else self.time_series_classification_data) =
      (if self.current_label ≠ 0 ∧ 0 < self.time_series_data.getNumRows then
        (self.time_series_classification_data.addSample self.current_label
          self.time_series_data).1
       else self.time_series_classification_data) := by
  split
  · rename_i h
    have hrows : self.time_series_data.rows ≠ [] := by
      intro hnil
      have := h.2
      simp [GRT.MatrixDouble.getNumRows, hnil] at this
    have hcols := hbuf h.1 hrows
    have hm : self.time_series_data = { rows := self.time_series_data.rows, cols := n } := by
      cases hts : self.time_series_data
      simp [hts] at hcols
      simp [hcols]
    rw [← hadj, hm]
    exact adjust_time_series_addSample n _ _ _
  · exact hadj

/-- While recording, a sequence of `add label y` messages whose label is read as a number `c2`
other than the current label, followed by `record 0`, gives the same object whether or not
`record 0`, `record 1` was sent first. -/
theorem run_adds_after_restart (fs : Files) (t : ml) (label : ℚ) (c2 n : Nat)
    (ys : List (List ℚ))
    (hdt : t.data_type = LABELLED_TIME_SERIES_CLASSIFICATION)
    (hnarrow : GetAFloat label = (c2 : ℚ))
    (hrec : t.recording = true) (hc2 : 0 < c2) (hl : t.current_label ≠ c2)
    (hn : 1 ≤ n) (hargc : n + 1 < 2 ^ 31) (hlen : ∀ y ∈ ys, y.length = n)
    (hadj : adjust_time_series n t.time_series_classification_data =
      t.time_series_classification_data)
    (hdim : t.time_series_classification_data.numDimensions < 2 ^ 32)
    (hbuf : t.current_label ≠ 0 → t.time_series_data.rows ≠ [] →
      t.time_series_data.cols = n) :
    run fs t (add_each label ys ++ [Message.record false]) =
      run fs ((t.record false).1.record true).1
        (add_each label ys ++ [Message.record false]) := by
  have hfinal : ∀ u : ml, run fs u [Message.record false] = (u.record false).1 :=
    fun _ => rfl
  have hrestart := record_false_true_time_series t hdt
  have hadj2 := restart_adjusted t n hadj hbuf
  have hdim2 : (if t.current_label ≠ 0 ∧ 0 < t.time_series_data.getNumRows then
        (t.time_series_classification_data.addSample t.current_label t.time_series_data).1
       else t.time_series_classification_data).numDimensions < 2 ^ 32 := by
    split
    · rw [addSample_numDimensions]; exact hdim
    · exact hdim
  by_cases hv : c2 < 2 ^ 32
  · cases ys with
    | nil =>
      simp only [add_each, List.map_nil, List.nil_append, hfinal]
      exact (record_false_after_restart t hdt).symm
    | cons y rest =>
      have hy : y.length = n := hlen y (List.mem_cons_self _ _)
      have hym : (y.map GetAFloat).length = n := by rw [List.length_map]; exact hy
      have hstep : (t.add (label :: y)).1 =
          (((t.record false).1.record true).1.add (label :: y)).1 := by
        rw [add_time_series t _ y hdt (by omega) hdim, hnarrow,
          time_series_add_new_label t c2 (y.map GetAFloat) hdt hc2 hv (by omega) hrec hl,
          hrestart]
        have h1 := add_time_series
          { t with
            recording := true,
            time_series_classification_data :=
              if t.current_label ≠ 0 ∧ 0 < t.time_series_data.getNumRows then
                (t.time_series_classification_data.addSample t.current_label
                  t.time_series_data).1
              else t.time_series_classification_data,
            time_series_data := { rows := [], cols := 0 },
            current_label := 0 } label y hdt (by omega) hdim2
        have h2 := time_series_add_new_label
          { t with
            recording := true,
            time_series_classification_data :=
              if t.current_label ≠ 0 ∧ 0 < t.time_series_data.getNumRows then
                (t.time_series_classification_data.addSample t.current_label
                  t.time_series_data).1
              else t.time_series_classification_data,
            time_series_data := { rows := [], cols := 0 },
            current_label := 0 } c2 (y.map GetAFloat) hdt hc2 hv (by omega) rfl
            (by simp; omega)
        rw [h1, hnarrow, h2, hym, hadj, hadj2]
        simp
      show run fs (t.add (label :: y)).1 _ = run fs (ml.add _ (label :: y)).1 _
      rw [hstep]
  · have hinv := run_add_each_invalid fs label c2 n hnarrow (by omega) hn hargc ys
    rw [run_append, run_append, hinv t hlen hdt hadj hdim, hrestart]
    have hinv2 := hinv
      { t with
        recording := true,
        time_series_classification_data :=
          if t.current_label ≠ 0 ∧ 0 < t.time_series_data.getNumRows then
            (t.time_series_classification_data.addSample t.current_label
              t.time_series_data).1
          else t.time_series_classification_data,
        time_series_data := { rows := [], cols := 0 },
        current_label := 0 } hlen hdt hadj2 hdim2
    rw [hinv2, ← hrestart, hfinal, hfinal]
    exact (record_false_after_restart t hdt).symm

/-- C20: in time-series mode, for positive integer labels `c1`, `c2` that `GetAFloat` reads as
different 32-bit floats, and non-empty sequences `xs`, `ys` of feature vectors of one common
width `n` (argument counts within `int`, dataset dimension within `GRT::UINT`), the messages
`record 1; add c1 x ...; add c2 y ...; record 0` leave the object (in particular the
time-series dataset, the recording flag, the buffer and the current label) in the same state as
`record 1; add c1 x ...; record 0; record 1; add c2 y ...; record 0`. -/
theorem label_change_while_recording (fs : Files) (self : ml) (c1 c2 n : Nat)
    (xs ys : List (List ℚ))
    (hdt : self.data_type = LABELLED_TIME_SERIES_CLASSIFICATION)
    (hc1 : 0 < c1) (hc2 : 0 < c2) (hne : GetAFloat (c1 : ℚ) ≠ GetAFloat (c2 : ℚ))
    (hxs : xs ≠ []) (_hys : ys ≠ [])
    (hlenx : ∀ x ∈ xs, x.length = n) (hleny : ∀ y ∈ ys, y.length = n)
    (hargc : n + 1 < 2 ^ 31)
    (hdim : self.time_series_classification_data.numDimensions < 2 ^ 32) :
    run fs self (Message.record true :: add_each (c1 : ℚ) xs ++ add_each (c2 : ℚ) ys ++
        [Message.record false]) =
      run fs self (Message.record true :: add_each (c1 : ℚ) xs ++
        [Message.record false, Message.record true] ++ add_each (c2 : ℚ) ys ++
        [Message.record false]) := by
  have hm1 := GetAFloat_natCast c1
  have hm2 := GetAFloat_natCast c2
  have hp1 := float_of_nat_pos c1 hc1
  have hp2 := float_of_nat_pos c2 hc2
  have hne2 : float_of_nat c1 ≠ float_of_nat c2 := by
    intro h
    apply hne
    rw [hm1, hm2, h]
  have hfinal : ∀ u : ml, run fs u [Message.record false] = (u.record false).1 :=
    fun _ => rfl
  have hmid : ∀ u : ml, run fs u [Message.record false, Message.record true] =
      ((u.record false).1.record true).1 := fun _ => rfl
  have hr := record_true_time_series self hdt
  have hl : run fs self (Message.record true :: add_each (c1 : ℚ) xs ++ add_each (c2 : ℚ) ys ++
        [Message.record false]) =
      run fs (run fs self (Message.record true :: add_each (c1 : ℚ) xs))
        (add_each (c2 : ℚ) ys ++ [Message.record false]) := by
    rw [List.append_assoc, run_append]
  have hrhs : run fs self (Message.record true :: add_each (c1 : ℚ) xs ++
        [Message.record false, Message.record true] ++ add_each (c2 : ℚ) ys ++
        [Message.record false]) =
      run fs (((run fs self (Message.record true :: add_each (c1 : ℚ) xs)).record false
          ).1.record true).1
        (add_each (c2 : ℚ) ys ++ [Message.record false]) := by
    have e : Message.record true :: add_each (c1 : ℚ) xs ++
        [Message.record false, Message.record true] ++ add_each (c2 : ℚ) ys ++
        [Message.record false] =
        ((Message.record true :: add_each (c1 : ℚ) xs) ++
          [Message.record false, Message.record true]) ++
        (add_each (c2 : ℚ) ys ++ [Message.record false]) := by
      simp [List.append_assoc]
    rw [e, run_append fs self _ (add_each (c2 : ℚ) ys ++ [Message.record false]),
      run_append fs self _ [Message.record false, Message.record true], hmid]
  rw [hl, hrhs]
  by_cases hn : n = 0
  · subst hn
    have ht : run fs self (Message.record true :: add_each (c1 : ℚ) xs) =
        (self.record true).1 := by
      rw [run_cons]
      exact run_add_each_no_features fs _ xs _ hlenx
    rw [ht, run_append, run_append, run_add_each_no_features fs _ ys _ hleny,
      run_add_each_no_features fs _ ys _ hleny, hfinal, hfinal, hr]
    exact (record_false_after_restart
      { self with recording := true, time_series_data := { rows := [], cols := 0 },
                  current_label := 0 } hdt).symm
  · have hn1 : 1 ≤ n := Nat.one_le_iff_ne_zero.mpr hn
    cases xs with
    | nil => exact absurd rfl hxs
    | cons x rest =>
      by_cases hv : float_of_nat c1 < 2 ^ 32
      · rw [run_record_then_adds fs self (c1 : ℚ) (float_of_nat c1) n x rest hdt hm1 hp1 hv
          hlenx hn1 hargc hdim]
        exact run_adds_after_restart fs
          { self with
            recording := true,
            current_label := float_of_nat c1,
            time_series_classification_data :=
              adjust_time_series n self.time_series_classification_data,
            time_series_data := { rows := (x :: rest).map (List.map GetAFloat), cols := n } }
          (c2 : ℚ) (float_of_nat c2) n ys hdt hm2 rfl hp2 hne2 hn1 hargc hleny
          (adjust_time_series_idem n _)
          (adjust_time_series_bound n _ hdim) (fun _ _ => rfl)
      · have hx : x.length = n := hlenx x (List.mem_cons_self _ _)
        have hxm : (x.map GetAFloat).length = n := by rw [List.length_map]; exact hx
        have h1 := add_time_series
          { self with recording := true, time_series_data := { rows := [], cols := 0 },
                      current_label := 0 } (c1 : ℚ) x hdt (by omega) hdim
        have h2 := time_series_add_invalid
          { self with recording := true, time_series_data := { rows := [], cols := 0 },
                      current_label := 0 } (float_of_nat c1) (x.map GetAFloat) (by omega)
          (by omega)
        have h3 := run_add_each_invalid fs (c1 : ℚ) (float_of_nat c1) n hm1 (by omega) hn1
          hargc rest
          { self with
            recording := true,
            time_series_data := { rows := [], cols := 0 },
            current_label := 0,
            time_series_classification_data :=
              adjust_time_series n self.time_series_classification_data }
          (fun y hy => hlenx y (List.mem_cons_of_mem _ hy)) hdt (adjust_time_series_idem n _)
          (adjust_time_series_bound n _ hdim)
        have ht : run fs self (Message.record true :: add_each (c1 : ℚ) (x :: rest)) =
            { self with
              recording := true,
              time_series_data := { rows := [], cols := 0 },
              current_label := 0,
              time_series_classification_data :=
                adjust_time_series n self.time_series_classification_data } := by
          rw [run_cons]
          show run fs (self.record true).1 _ = _
          rw [hr, run_add_each_cons, h1, hm1, h2, hxm]
          exact h3
        rw [ht]
        exact run_adds_after_restart fs
          { self with
            recording := true,
            time_series_data := { rows := [], cols := 0 },
            current_label := 0,
            time_series_classification_data :=
              adjust_time_series n self.time_series_classification_data }
          (c2 : ℚ) (float_of_nat c2) n ys hdt hm2 rfl hp2 (by simp; omega) hn1 hargc hleny
          (adjust_time_series_idem n _)
          (adjust_time_series_bound n _ hdim) (fun h _ => absurd rfl h)

theorem label_change_while_recording_witness :
    run (files_with true true) sample_time_series
      (Message.record true :: add_each ((3 : Nat) : ℚ) [[1, 2], [3, 4]] ++
        add_each ((4 : Nat) : ℚ) [[5, 6]] ++ [Message.record false]) =
      run (files_with true true) sample_time_series
        (Message.record true :: add_each ((3 : Nat) : ℚ) [[1, 2], [3, 4]] ++
          [Message.record false, Message.record true] ++ add_each ((4 : Nat) : ℚ) [[5, 6]] ++
          [Message.record false]) :=
  label_change_while_recording (files_with true true) sample_time_series 3 4 2
    [[1, 2], [3, 4]] [[5, 6]] rfl (by decide) (by decide) (by decide!) (by simp) (by simp)
    (by decide) (by decide) (by decide) (by decide)

/-- C20, as stated, fails for the labels 16777216 and 16777217, which `GetAFloat` reads as one
32-bit float: on a two-dimensional time-series object, changing from the one to the other while
recording stores a single sample holding all the rows, whereas `record 0; record 1` in between
stores two samples. -/
theorem label_change_between_equal_floats :
    sample_time_series.data_type = LABELLED_TIME_SERIES_CLASSIFICATION ∧
    ((16777216 : Nat) ≠ 16777217) ∧
    (run (files_with true true) sample_time_series
      (Message.record true :: add_each ((16777216 : Nat) : ℚ) [[1, 2]] ++
        add_each ((16777217 : Nat) : ℚ) [[3, 4]] ++
        [Message.record false])).time_series_classification_data.data =
      sample_time_series.time_series_classification_data.data ++
        [{ classLabel := 16777216, data := { rows := [[1, 2], [3, 4]], cols := 2 } }] ∧
    (run (files_with true true) sample_time_series
      (Message.record true :: add_each ((16777216 : Nat) : ℚ) [[1, 2]] ++
        [Message.record false, Message.record true] ++
        add_each ((16777217 : Nat) : ℚ) [[3, 4]] ++
        [Message.record false])).time_series_classification_data.data =
      sample_time_series.time_series_classification_data.data ++
        [{ classLabel := 16777216, data := { rows := [[1, 2]], cols := 2 } },
         { classLabel := 16777216, data := { rows := [[3, 4]], cols := 2 } }] ∧
    (run (files_with true true) sample_time_series
      (Message.record true :: add_each ((16777216 : Nat) : ℚ) [[1, 2]] ++
        add_each ((16777217 : Nat) : ℚ) [[3, 4]] ++
        [Message.record false])).time_series_classification_data ≠
    (run (files_with true true) sample_time_series
      (Message.record true :: add_each ((16777216 : Nat) : ℚ) [[1, 2]] ++
        [Message.record false, Message.record true] ++
        add_each ((16777217 : Nat) : ℚ) [[3, 4]] ++
        [Message.record false])).time_series_classification_data := by
  decide!

end ml

/-! ## The recording flag, the buffer and the current label in reachable states -/

namespace ml

open ml_data_type

theorem recording_invariant_of_same (before after : ml)
    (hrec : after.recording = before.recording)
    (hbuf : after.time_series_data = before.time_series_data)
    (hlabel : after.current_label = before.current_label)
    (h : recording_invariant before) : recording_invariant after := by
  unfold recording_invariant at h ⊢
  rw [hrec, hbuf, hlabel]
  exact h

theorem recording_invariant_of_cleared (self : ml)
    (hbuf : self.time_series_data.getNumRows = 0) (hlabel : self.current_label = 0) :
    recording_invariant self :=
  ⟨fun _ => ⟨hbuf, hlabel⟩, fun h => absurd hbuf h⟩

theorem recording_invariant_of_labelled (self : ml)
    (hrec : self.recording = true) (hlabel : self.current_label ≠ 0) :
    recording_invariant self :=
  ⟨fun h => by rw [hrec] at h; exact absurd h (by decide), fun _ => hlabel⟩

theorem record__of_other_data_type (self : ml) (state : Bool)
    (hdt : self.data_type ≠ LABELLED_TIME_SERIES_CLASSIFICATION) :
    (self.record_ state).1 = self := by
  simp [ml.record_, ml.get_data_type, hdt]

theorem record__of_time_series (self : ml) (state : Bool)
    (hdt : self.data_type = LABELLED_TIME_SERIES_CLASSIFICATION) :
    (self.record_ state).1.recording = state ∧
    (self.record_ state).1.current_label = 0 ∧
    (self.record_ state).1.time_series_data.getNumRows = 0 ∧
    (self.record_ state).1.data_type = LABELLED_TIME_SERIES_CLASSIFICATION := by
  cases self
  simp only at hdt
  subst hdt
  simp [ml.record_, ml.get_data_type, GRT.MatrixDouble.clear, GRT.MatrixDouble.getNumRows]
  constructor <;> split <;> rfl

theorem record__recording_invariant (self : ml) (state : Bool)
    (h : recording_invariant self) : recording_invariant (self.record_ state).1 := by
  by_cases hdt : self.data_type = LABELLED_TIME_SERIES_CLASSIFICATION
  · have hf := record__of_time_series self state hdt
    exact recording_invariant_of_cleared _ hf.2.2.1 hf.2.1
  · rw [record__of_other_data_type self state hdt]
    exact h

theorem record__recording_of_recording (self : ml) (h : self.recording = true) :
    ((self.record_ false).1.record_ true).1.recording = true := by
  by_cases hdt : self.data_type = LABELLED_TIME_SERIES_CLASSIFICATION
  · have hf := record__of_time_series self false hdt
    exact (record__of_time_series (self.record_ false).1 true hf.2.2.2).1
  · rw [record__of_other_data_type self false hdt, record__of_other_data_type self true hdt]
    exact h

theorem add_store_recording_invariant (self : ml) (data_type : ml_data_type)
    (targetVector inputVector : GRT.VectorDouble) (h : recording_invariant self) :
    recording_invariant (self.add_store data_type targetVector inputVector).1 := by
  unfold ml.add_store
  split
  · dsimp only
    split
    · exact h
    · split
      · exact h
      · rename_i hzero
        split
        · exact recording_invariant_of_same self _ rfl rfl rfl h
        · split
          · rename_i hrec
            apply recording_invariant_of_labelled
            · show (ite _ _ _ : ml × List Event).1.recording = true
              split
              · exact record__recording_of_recording self hrec
              · exact hrec
            · exact hzero
          · exact h
  · split
    · exact recording_invariant_of_same self _ rfl rfl rfl h
    · exact h

theorem set_num_inputs_recording_invariant (self : ml) (num_inputs : Nat)
    (h : recording_invariant self) :
    recording_invariant (self.set_num_inputs num_inputs).1 := by
  have hset := set_num_inputs_no_sample_added self num_inputs
  exact recording_invariant_of_same self _ hset.2.2.2 hset.2.1 hset.2.2.1 h

theorem set_data_type_recording_invariant (self : ml) (data_type : ml_data_type)
    (h : recording_invariant self) :
    recording_invariant (self.set_data_type data_type).1 := by
  unfold ml.set_data_type
  split
  · exact h
  · exact recording_invariant_of_same self _ rfl rfl rfl h

theorem add_recording_invariant (self : ml) (argv : List ℚ)
    (h : recording_invariant self) : recording_invariant (self.add argv).1 := by
  unfold ml.add
  dsimp only
  split
  · exact h
  · split
    · exact h
    · split
      · split
        · exact h
        · exact add_store_recording_invariant _ _ _ _
            (set_num_inputs_recording_invariant self _ h)
      · exact add_store_recording_invariant _ _ _ _ h

theorem clear_recording_invariant (self : ml) (h : recording_invariant self) :
    recording_invariant (self.clear).1 :=
  recording_invariant_of_same self _ rfl rfl rfl h

theorem read_recording_invariant (self : ml) (fs : Files) (path : Option CppString)
    (h : recording_invariant self) : recording_invariant (self.read fs path).1 := by
  unfold ml.read
  dsimp only
  split
  · exact h
  · apply recording_invariant_of_same self _ _ _ _ h
    · split <;> split <;> rfl
    · split <;> split <;> rfl
    · split <;> split <;> rfl

theorem handle_recording_invariant (fs : Files) (self : ml) (m : Message)
    (h : recording_invariant self) : recording_invariant (handle fs self m).1 := by
  cases m with
  | add argv => exact add_recording_invariant self argv h
  | record state => exact record__recording_invariant self state h
  | clear => exact clear_recording_invariant self h
  | read path => exact read_recording_invariant self fs path h
  | write path => exact h
  | set_data_type data_type => exact set_data_type_recording_invariant self data_type h
  | set_num_inputs num_inputs => exact set_num_inputs_recording_invariant self num_inputs h

theorem run_steps_recording_invariant (steps : List (Files × Message)) :
    ∀ self : ml, recording_invariant self → recording_invariant (run_steps self steps) := by
  induction steps with
  | nil => intro self h; exact h
  | cons step rest ih =>
    intro self h
    exact ih _ (handle_recording_invariant step.1 self step.2 h)

theorem constructor_recording_invariant (uninitialised default_data_type : ml_data_type)
    (default_num_input_dimensions : Nat) (mlBase : GRT.MLBase) :
    recording_invariant
      (ml.constructor uninitialised default_data_type default_num_input_dimensions mlBase).1 := by
  unfold ml.constructor
  dsimp only
  apply set_num_inputs_recording_invariant
  apply set_data_type_recording_invariant
  exact recording_invariant_of_cleared _ rfl rfl

/-- C21: in every state reached from construction (whatever the two defaults of the header, the
initial learner and the file-system behaviour) by a sequence of `add`, `record`, `clear`,
`read`, `write`, `set_data_type` and `set_num_inputs` requests: if recording is off, the
recording buffer has no rows and the current label is 0; and if the buffer has rows, the
current label is non-zero. -/
theorem reachable_recording_invariant (uninitialised default_data_type : ml_data_type)
    (default_num_input_dimensions : Nat) (mlBase : GRT.MLBase)
    (steps : List (Files × Message)) :
    ((run_steps (ml.constructor uninitialised default_data_type default_num_input_dimensions
        mlBase).1 steps).recording = false →
      (run_steps (ml.constructor uninitialised default_data_type default_num_input_dimensions
        mlBase).1 steps).time_series_data.getNumRows = 0 ∧
      (run_steps (ml.constructor uninitialised default_data_type default_num_input_dimensions
        mlBase).1 steps).current_label = 0) ∧
    ((run_steps (ml.constructor uninitialised default_data_type default_num_input_dimensions
        mlBase).1 steps).time_series_data.getNumRows ≠ 0 →
      (run_steps (ml.constructor uninitialised default_data_type default_num_input_dimensions
        mlBase).1 steps).current_label ≠ 0) :=
  run_steps_recording_invariant steps _
    (constructor_recording_invariant uninitialised default_data_type
      default_num_input_dimensions mlBase)

theorem reachable_recording_invariant_witness :
    ((run_steps (ml.constructor LABELLED_CLASSIFICATION LABELLED_TIME_SERIES_CLASSIFICATION 2
        { trained := false }).1
        [(files_with true true, Message.record true),
         (files_with true true, Message.add [1, 5, 7]),
         (files_with true true, Message.record false)]).time_series_data.getNumRows = 0 ∧
      (run_steps (ml.constructor LABELLED_CLASSIFICATION LABELLED_TIME_SERIES_CLASSIFICATION 2
        { trained := false }).1
        [(files_with true true, Message.record true),
         (files_with true true, Message.add [1, 5, 7]),
         (files_with true true, Message.record false)]).current_label = 0) ∧
    (run_steps (ml.constructor LABELLED_CLASSIFICATION LABELLED_TIME_SERIES_CLASSIFICATION 2
        { trained := false }).1
        [(files_with true true, Message.record true),
         (files_with true true, Message.add [1, 5, 7])]).current_label ≠ 0 :=
  ⟨(reachable_recording_invariant LABELLED_CLASSIFICATION LABELLED_TIME_SERIES_CLASSIFICATION 2
      { trained := false }
      [(files_with true true, Message.record true),
       (files_with true true, Message.add [1, 5, 7]),
       (files_with true true, Message.record false)]).1 (by decide!),
   (reachable_recording_invariant LABELLED_CLASSIFICATION LABELLED_TIME_SERIES_CLASSIFICATION 2
      { trained := false }
      [(files_with true true, Message.record true),
       (files_with true true, Message.add [1, 5, 7])]).2 (by decide!)⟩

end ml
